import Mathlib

/-!
# windisplaymode: a shallow embedding of `src/windisplaymode.cpp`

The program lists and changes display modes through the Windows display API.
The embedding keeps the source's function names.  The operating system is a
record of answer tables (`OS`); every call the program makes to it is logged
in order (`OsCall`), and everything written to standard output and standard
error is kept as text, so that statements such as "the mode handed to the
change call" or "the change call is never made" are statements about values.

Layout: platform constants, data model, C runtime helpers (`atoi`), the
regular-expression engine restricted to the constructs the two patterns use,
the program's functions, the spec-side definitions, then lemmas and theorems.
-/

namespace WinDisplayMode

/-! ## Platform constants

Values of the Windows SDK headers (`wingdi.h`, `winuser.h`, `stdlib.h`), which
the source includes through `<windows.h>`. -/

/-- Process exit code of `stdlib.h`. -/
def EXIT_SUCCESS : Int := 0

/-- Process exit code of `stdlib.h`. -/
def EXIT_FAILURE : Int := 1

/-- The `dmFields` flag of `wingdi.h` for `dmBitsPerPel`. -/
def DM_BITSPERPEL : Nat := 0x00040000

/-- The `dmFields` flag of `wingdi.h` for `dmPelsWidth`. -/
def DM_PELSWIDTH : Nat := 0x00080000

/-- The `dmFields` flag of `wingdi.h` for `dmPelsHeight`. -/
def DM_PELSHEIGHT : Nat := 0x00100000

/-- The `dmFields` flag of `wingdi.h` for `dmDisplayFrequency`. -/
def DM_DISPLAYFREQUENCY : Nat := 0x00400000

/-- Result code of `ChangeDisplaySettingsEx` (`winuser.h`). -/
def DISP_CHANGE_SUCCESSFUL : Int := 0

/-- Result code of `ChangeDisplaySettingsEx` (`winuser.h`). -/
def DISP_CHANGE_RESTART : Int := 1

/-- Result code of `ChangeDisplaySettingsEx` (`winuser.h`). -/
def DISP_CHANGE_FAILED : Int := -1

/-- Result code of `ChangeDisplaySettingsEx` (`winuser.h`). -/
def DISP_CHANGE_BADMODE : Int := -2

/-- Result code of `ChangeDisplaySettingsEx` (`winuser.h`). -/
def DISP_CHANGE_NOTUPDATED : Int := -3

/-- Result code of `ChangeDisplaySettingsEx` (`winuser.h`). -/
def DISP_CHANGE_BADFLAGS : Int := -4

/-- Result code of `ChangeDisplaySettingsEx` (`winuser.h`). -/
def DISP_CHANGE_BADPARAM : Int := -5

/-- Result code of `ChangeDisplaySettingsEx` (`winuser.h`). -/
def DISP_CHANGE_BADDUALVIEW : Int := -6

/-- The mode number `((DWORD)-1)` that asks `EnumDisplaySettings` for the
current mode (`winuser.h`). -/
def ENUM_CURRENT_SETTINGS : Nat := 0xFFFFFFFF

/-- Largest `int` (32 bits on Windows). -/
def INT_MAX : Int := 2147483647

/-- Smallest `int` (32 bits on Windows). -/
def INT_MIN : Int := -2147483648

/-! ## Data model -/

/-- The two members of `DISPLAY_DEVICE` the program reads. -/
structure DISPLAY_DEVICE where
  DeviceName : String
  DeviceString : String
deriving DecidableEq, Repr

/-- The members of `DEVMODE` the program reads or writes; each is a `DWORD`. -/
structure DEVMODE where
  dmFields : Nat
  dmPelsWidth : Nat
  dmPelsHeight : Nat
  dmBitsPerPel : Nat
  dmDisplayFrequency : Nat
deriving DecidableEq, Repr

/-- The display subsystem as the program sees it.
* `displays`: the devices `EnumDisplayDevices(nullptr, i, ..)` reports for
  `i = 0, 1, ..` before it reports the end of the list;
* `monitors name`: the same for `EnumDisplayDevices(name, i, ..)`;
* `modes name`: the entries `EnumDisplaySettings(name, i, ..)` reports for
  `i = 0, 1, ..` before it fails;
* `current name`: the answer to `EnumDisplaySettings(name, ENUM_CURRENT_SETTINGS, ..)`,
  `none` when the call fails;
* `change name mode`: the result code of `ChangeDisplaySettingsEx(name, &mode, ..)`. -/
structure OS where
  displays : List DISPLAY_DEVICE
  monitors : String → List DISPLAY_DEVICE
  modes : String → List DEVMODE
  current : String → Option DEVMODE
  change : String → DEVMODE → Int

/-- One call into the display API, with the arguments that matter. -/
inductive OsCall where
  | EnumDisplayDevices (lpDevice : Option String) (iDevNum : Nat)
  | EnumDisplaySettings (deviceName : String) (iModeNum : Nat)
  | ChangeDisplaySettingsEx (deviceName : String) (mode : DEVMODE)
deriving DecidableEq, Repr

/-- What one run of a command leaves behind: the exit code, the text written to
`std::cout` and to `std::cerr`, and the API calls in the order they were made. -/
structure Outcome where
  code : Int
  out : String
  err : String
  calls : List OsCall
deriving DecidableEq, Repr

/-- The modes handed to `ChangeDisplaySettingsEx`, with the device they were
handed for, in call order. -/
def changeRequests : List OsCall → List (String × DEVMODE)
  | [] => []
  | .ChangeDisplaySettingsEx deviceName mode :: rest => (deviceName, mode) :: changeRequests rest
  | _ :: rest => changeRequests rest

/-- A call that enumerates, queries or changes a display mode (as opposed to
one that enumerates devices). -/
def OsCall.touchesMode : OsCall → Bool
  | .EnumDisplayDevices _ _ => false
  | .EnumDisplaySettings _ _ => true
  | .ChangeDisplaySettingsEx _ _ => true

/-! ## C runtime helpers -/

/-- Conversion of an `int` to a `DWORD` (32-bit unsigned), as in
`mode.dmPelsWidth = std::atoi(..)`. -/
def toDWORD (i : Int) : Nat := (i % 2 ^ 32).toNat

/-- Conversion of a `DWORD` to an `int`, as in the construction of the
`std::tuple<int, int, int, int>` from the `DEVMODE` members. -/
def toInt (v : Nat) : Int :=
  if v % 2 ^ 32 < 2 ^ 31 then ((v % 2 ^ 32 : Nat) : Int) else ((v % 2 ^ 32 : Nat) : Int) - 2 ^ 32

/-- The white-space characters of `isspace` in the "C" locale. -/
def isspace (c : Char) : Bool :=
  c == ' ' || c == '\t' || c == '\n' || c == '\x0b' || c == '\x0c' || c == '\r'

/-- The digit loop of `atoi`: accumulates decimal digits until the first
character that is not one. -/
def atoiDigits (acc : Nat) : List Char → Nat
  | [] => acc
  | c :: cs => if c.isDigit then atoiDigits (acc * 10 + (c.toNat - '0'.toNat)) cs else acc

/-- The function `atoi` of the Windows C runtime: skips white space, reads an
optional sign and the decimal digits that follow, and returns `INT_MAX` or
`INT_MIN` when the value is out of range (the C standard leaves that case
undefined; the runtime the program is built against documents the clamp). -/
def atoi (str : List Char) : Int :=
  match str.dropWhile isspace with
  | '-' :: cs => max INT_MIN (-(atoiDigits 0 cs : Int))
  | '+' :: cs => min INT_MAX (atoiDigits 0 cs : Int)
  | cs => min INT_MAX (atoiDigits 0 cs : Int)

/-! ## Regular expressions

The constructs of the ECMAScript grammar that the two patterns of
`SetDisplayMode` use: a literal character, `\d`, `+` on a single character
class, concatenation, the optional non-capturing group `(?: .. )?` and the
numbered capture group. -/

/-- A pattern that matches one character. -/
inductive Atom where
  | chr (c : Char)
  | digit
deriving DecidableEq, Repr

/-- Regular-expression syntax. -/
inductive Regex where
  | atom (a : Atom)
  | plus (a : Atom)
  | seq (r1 r2 : Regex)
  | opt (r : Regex)
  | group (n : Nat) (r : Regex)
deriving DecidableEq, Repr

/-- The sub-matches recorded so far: the most recent entry for a group number
is the text the group matched; a group without an entry did not match. -/
abbrev Captures := List (Nat × List Char)

/-- Whether an atom matches a character.  Under `icase` a literal is compared
after both characters went through `tolower`, as `regex_traits::translate_nocase`
does. -/
def Atom.test (icase : Bool) : Atom → Char → Bool
  | .chr l, c => if icase then c.toLower == l.toLower else c == l
  | .digit, c => c.isDigit

/-- The remainders left by `a+` on an input, longest match first (the
quantifier is greedy and gives characters back one at a time). -/
def plusAtom (p : Char → Bool) : List Char → List (List Char)
  | [] => []
  | c :: t => if p c then plusAtom p t ++ [t] else []

/-- Backtracking matcher: all ways a pattern can match a front part of the input,
in the order a backtracking engine tries them, each with the remaining input
and the captures. -/
def Regex.run (icase : Bool) : Regex → List Char → Captures → List (List Char × Captures)
  | .atom a, s, caps =>
    match s with
    | c :: t => if a.test icase c then [(t, caps)] else []
    | [] => []
  | .plus a, s, caps => (plusAtom (a.test icase) s).map (fun t => (t, caps))
  | .seq r1 r2, s, caps => (run icase r1 s caps).flatMap (fun p => run icase r2 p.1 p.2)
  | .opt r, s, caps => run icase r s caps ++ [(s, caps)]
  | .group n r, s, caps =>
    (run icase r s caps).map (fun p => (p.1, (n, s.take (s.length - p.1.length)) :: p.2))

/-- The function `std::regex_match`: the first way to match the pattern that
consumes the whole string, if there is one; the result holds the captures. -/
def regex_match (s : String) (re : Regex) (icase : Bool) : Option Captures :=
  ((re.run icase s.data []).find? (fun p => p.1.isEmpty)).map (fun p => p.2)

/-- The member `match[n].matched`. -/
def Captures.matched (m : Captures) (n : Nat) : Bool := (m.lookup n).isSome

/-- The member `match[n].str()`: the empty string for a group that did not match. -/
def Captures.str (m : Captures) (n : Nat) : List Char := (m.lookup n).getD []

/-- The capture group `(\d+)` with number `n`. -/
def digitsGroup (n : Nat) : Regex := .group n (.plus .digit)

/-- The pattern `(\d+)x(\d+)(?:x(\d+))?(?:@(\d+))?` of `SetDisplayMode`. -/
def modeRegex : Regex :=
  .seq (digitsGroup 1) (.seq (.atom (.chr 'x')) (.seq (digitsGroup 2)
    (.seq (.opt (.seq (.atom (.chr 'x')) (digitsGroup 3)))
      (.opt (.seq (.atom (.chr '@')) (digitsGroup 4))))))

/-- The pattern `@(\d+)` of `SetDisplayMode`. -/
def refreshRateRegex : Regex := .seq (.atom (.chr '@')) (digitsGroup 1)

/-- The flag `std::regex_constants::icase` both patterns are compiled with. -/
def regexFlags : Bool := true

/-! ## The program -/

/-- The function `GetChangeDisplaySettingsErrorMessage`: the `switch` over the
result code, with the fall-through text. -/
def GetChangeDisplaySettingsErrorMessage (errorCode : Int) : String :=
  if errorCode = DISP_CHANGE_SUCCESSFUL then
    "The settings change was successful"
  else if errorCode = DISP_CHANGE_BADDUALVIEW then
    "The settings change was unsuccessful because the system is DualView capable"
  else if errorCode = DISP_CHANGE_BADFLAGS then
    "An invalid set of flags was passed in"
  else if errorCode = DISP_CHANGE_BADMODE then
    "The graphics mode is not supported"
  else if errorCode = DISP_CHANGE_BADPARAM then
    "An invalid parameter was passed in"
  else if errorCode = DISP_CHANGE_FAILED then
    "The display driver failed the specified graphics mode"
  else if errorCode = DISP_CHANGE_NOTUPDATED then
    "Unable to write settings to the registry"
  else if errorCode = DISP_CHANGE_RESTART then
    "The computer must be restarted for the graphics mode to work"
  else
    "Unknown error"

/-- The text `PrintUsage` writes to `std::cerr`. -/
def PrintUsage (programName : String) : String :=
  "Usage:\n\n"
    ++ programName ++ " list <display>\n"
    ++ "\tPrint a list of available display modes for the specified display\n"
    ++ programName ++ " set <display> <mode>\n"
    ++ "\tChange display mode\n\n"
    ++ "Examples:\n\n"
    ++ programName ++ " set 0 1920x1080\n"
    ++ "\tChange resolution of display 0 (first display) to 1920 (width) by 1080 (height) pixels\n"
    ++ programName ++ " set 0 1920x1080x32\n"
    ++ "\tChange resolution of display 0 to 1920x1080 with 32-bit colors\n"
    ++ programName ++ " set 0 1920x1080@60\n"
    ++ "\tSet both resolution and refresh rate (60 Hz)\n"
    ++ programName ++ " set 0 @144\n"
    ++ "\tChange refresh rate to 144 Hz keeping the same resolution and color depth\n"
    ++ "\n"

/-- The loop of `FindDisplay`.  `iDevNum` is the loop counter; the list holds the
devices the system has not reported yet, so `EnumDisplayDevices(nullptr, iDevNum, ..)`
answers with its head, or with failure when it is empty.  Returns the device
left in `device` when the function returns `true`, and the calls made.
(The counter is not wrapped at 32 bits: it only exceeds `INT_MAX` after that
many devices were reported.) -/
def FindDisplayLoop (displayIndex : Int) :
    Nat → List DISPLAY_DEVICE → Option DISPLAY_DEVICE × List OsCall
  | iDevNum, [] => (none, [.EnumDisplayDevices none iDevNum])
  | iDevNum, device :: rest =>
    if (iDevNum : Int) = displayIndex then
      (some device, [.EnumDisplayDevices none iDevNum])
    else
      ((FindDisplayLoop displayIndex (iDevNum + 1) rest).1,
        .EnumDisplayDevices none iDevNum :: (FindDisplayLoop displayIndex (iDevNum + 1) rest).2)

/-- The function `FindDisplay`: `some device` for `true`, `none` for `false`. -/
def FindDisplay (os : OS) (displayIndex : Int) : Option DISPLAY_DEVICE × List OsCall :=
  FindDisplayLoop displayIndex 0 os.displays

/-- The function `FindMonitor`: one call of `EnumDisplayDevices` on the display's
device name. -/
def FindMonitor (os : OS) (displayDeviceName : String) (monitorIndex : Nat) :
    Option DISPLAY_DEVICE × List OsCall :=
  ((os.monitors displayDeviceName)[monitorIndex]?,
    [.EnumDisplayDevices (some displayDeviceName) monitorIndex])

/-- The element type `DisplayMode` of `ListDisplayModes`:
`std::tuple<int, int, int, int>`. -/
abbrev DisplayMode := Int × Int × Int × Int

/-- The comparison `operator<` of `std::tuple`, which `std::set` orders by:
lexicographic, written with `<` on the components only. -/
def DisplayMode.lt (a b : DisplayMode) : Bool :=
  decide (a.1 < b.1) || (!decide (b.1 < a.1) &&
    (decide (a.2.1 < b.2.1) || (!decide (b.2.1 < a.2.1) &&
      (decide (a.2.2.1 < b.2.2.1) || (!decide (b.2.2.1 < a.2.2.1) &&
        decide (a.2.2.2 < b.2.2.2))))))

/-- The member `std::set::insert` on the set kept as the list of its elements in
iteration order: the element goes before the first greater one, and is dropped
when an equivalent one (neither less than the other) is already there. -/
def setInsert (x : DisplayMode) : List DisplayMode → List DisplayMode
  | [] => [x]
  | y :: ys =>
    if DisplayMode.lt x y then x :: y :: ys
    else if DisplayMode.lt y x then y :: setInsert x ys
    else y :: ys

/-- The tuple `ListDisplayModes` builds from an enumerated entry. -/
def modeTuple (mode : DEVMODE) : DisplayMode :=
  (toInt mode.dmPelsWidth, toInt mode.dmPelsHeight, toInt mode.dmBitsPerPel,
    toInt mode.dmDisplayFrequency)

/-- The enumeration loop of `ListDisplayModes`.  `iModeNum` is the loop counter,
the list holds the entries the system has not reported yet, `displayModes` is
the set built so far.  Returns the final set and the calls made. -/
def EnumModesLoop (deviceName : String) :
    Nat → List DEVMODE → List DisplayMode → List DisplayMode × List OsCall
  | iModeNum, [], displayModes => (displayModes, [.EnumDisplaySettings deviceName iModeNum])
  | iModeNum, mode :: rest, displayModes =>
    ((EnumModesLoop deviceName (iModeNum + 1) rest (setInsert (modeTuple mode) displayModes)).1,
      .EnumDisplaySettings deviceName iModeNum ::
        (EnumModesLoop deviceName (iModeNum + 1) rest (setInsert (modeTuple mode) displayModes)).2)

/-- The line `ListDisplayModes` prints for one element of the set. -/
def modeLine (mode : DisplayMode) : String :=
  "\t" ++ toString mode.1 ++ "x" ++ toString mode.2.1 ++ "x" ++ toString mode.2.2.1
    ++ "@" ++ toString mode.2.2.2 ++ "\n"

/-- The function `ListDisplayModes`. -/
def ListDisplayModes (os : OS) (displayIndex : Int) : Outcome :=
  match (FindDisplay os displayIndex).1 with
  | none =>
    { code := EXIT_FAILURE, out := "",
      err := "Display not found: " ++ toString displayIndex ++ "\n",
      calls := (FindDisplay os displayIndex).2 }
  | some displayDevice =>
    let monitor := FindMonitor os displayDevice.DeviceName 0
    let description :=
      match monitor.1 with
      | some monitorDevice => " - " ++ monitorDevice.DeviceString
      | none => ""
    let modes := EnumModesLoop displayDevice.DeviceName 0 (os.modes displayDevice.DeviceName) []
    { code := EXIT_SUCCESS,
      out := "Display:\n\t" ++ displayDevice.DeviceString ++ description
        ++ "\n\nAvailable modes:" ++ "\n"
        ++ String.join (modes.1.map modeLine)
        ++ "\n",
      err := "",
      calls := (FindDisplay os displayIndex).2 ++ monitor.2 ++ modes.2 }

/-- The parsing block of `SetDisplayMode` (the `if` / `else if` / `else` over the
two `std::regex_match` calls): the mode after the assignments, or `none` when
the block takes the invalid-mode-string exit. -/
def applyModeString (mode : DEVMODE) (modeString : String) : Option DEVMODE :=
  match regex_match modeString modeRegex regexFlags with
  | some m =>
    let mode := { mode with dmFields := mode.dmFields ||| DM_PELSWIDTH }
    let mode := { mode with dmPelsWidth := toDWORD (atoi (m.str 1)) }
    let mode := { mode with dmFields := mode.dmFields ||| DM_PELSHEIGHT }
    let mode := { mode with dmPelsHeight := toDWORD (atoi (m.str 2)) }
    let mode :=
      if m.matched 3 then
        { mode with dmFields := DM_BITSPERPEL, dmBitsPerPel := toDWORD (atoi (m.str 3)) }
      else mode
    let mode :=
      if m.matched 4 then
        { mode with dmFields := DM_DISPLAYFREQUENCY,
                    dmDisplayFrequency := toDWORD (atoi (m.str 4)) }
      else mode
    some mode
  | none =>
    match regex_match modeString refreshRateRegex regexFlags with
    | some m =>
      some { mode with dmFields := DM_DISPLAYFREQUENCY,
                       dmDisplayFrequency := toDWORD (atoi (m.str 1)) }
    | none => none

/-- The function `SetDisplayMode`. -/
def SetDisplayMode (os : OS) (displayIndex : Int) (modeString : String) : Outcome :=
  match (FindDisplay os displayIndex).1 with
  | none =>
    { code := EXIT_FAILURE, out := "",
      err := "Display not found: " ++ toString displayIndex ++ "\n",
      calls := (FindDisplay os displayIndex).2 }
  | some displayDevice =>
    let calls := (FindDisplay os displayIndex).2
      ++ [.EnumDisplaySettings displayDevice.DeviceName ENUM_CURRENT_SETTINGS]
    match os.current displayDevice.DeviceName with
    | none =>
      { code := EXIT_FAILURE, out := "",
        err := "Error: Failed to obtain current monitor settings" ++ "\n",
        calls := calls }
    | some current =>
      match applyModeString current modeString with
      | none =>
        { code := EXIT_FAILURE, out := "",
          err := "Error: Invalid mode string: " ++ modeString ++ "\n",
          calls := calls }
      | some mode =>
        let changeResult := os.change displayDevice.DeviceName mode
        if changeResult ≠ DISP_CHANGE_SUCCESSFUL then
          { code := EXIT_FAILURE, out := "",
            err := "Error: Failed to change display settings: "
              ++ GetChangeDisplaySettingsErrorMessage changeResult ++ "\n",
            calls := calls ++ [.ChangeDisplaySettingsEx displayDevice.DeviceName mode] }
        else
          { code := EXIT_SUCCESS, out := "", err := "",
            calls := calls ++ [.ChangeDisplaySettingsEx displayDevice.DeviceName mode] }

/-- The function `main`.  `programName` is the file-name part of `argv[0]` that
`_splitpath_s` extracts, `params` is `argv + 1`.  The first pattern is the
case `paramCount >= 2`; the second is `paramCount < 2`. -/
def main (os : OS) (programName : String) (params : List String) : Outcome :=
  match params with
  | command :: indexArg :: rest =>
    let displayIndex := atoi indexArg.data
    if command = "list" then
      ListDisplayModes os displayIndex
    else if command = "set" then
      match rest with
      | [] => { code := EXIT_FAILURE, out := "", err := PrintUsage programName, calls := [] }
      | modeString :: _ => SetDisplayMode os displayIndex modeString
    else
      { code := EXIT_FAILURE, out := "", err := "Unknown command: " ++ command ++ "\n",
        calls := [] }
  | _ => { code := EXIT_FAILURE, out := "", err := PrintUsage programName, calls := [] }

/-! ## Spec-side definitions

What the specification's words say, written independently of the code above;
the theorems compare the two. -/

/-- The token DIGITS of the mode-string grammar: one or more decimal digits. -/
def IsDigits (w : List Char) : Prop := w ≠ [] ∧ ∀ c ∈ w, c.isDigit = true

instance : DecidablePred IsDigits := fun w =>
  inferInstanceAs (Decidable (w ≠ [] ∧ ∀ c ∈ w, c.isDigit = true))

/-- An optional part of a mode string: a separator followed by DIGITS, or nothing. -/
def optPart (sep : Char) : Option (List Char) → List Char
  | none => []
  | some d => sep :: d

/-- The word `W x H [x D] [@ R]` of the full form. -/
def fullFormWord (W H : List Char) (D R : Option (List Char)) : List Char :=
  W ++ 'x' :: H ++ optPart 'x' D ++ optPart '@' R

/-- The whole string matches, case-insensitively, the full form
`DIGITS x DIGITS [x DIGITS] [@ DIGITS]`: it equals a word of that form once
both are put in lower case. -/
def MatchesFullForm (s : String) : Prop :=
  ∃ W H D R, IsDigits W ∧ IsDigits H ∧ (∀ d ∈ D, IsDigits d) ∧ (∀ r ∈ R, IsDigits r) ∧
    s.data.map Char.toLower = (fullFormWord W H D R).map Char.toLower

/-- The whole string matches, case-insensitively, the refresh-only form `@ DIGITS`. -/
def MatchesRefreshForm (s : String) : Prop :=
  ∃ R, IsDigits R ∧ s.data.map Char.toLower = ('@' :: R).map Char.toLower

/-- The decimal value of a digit string, by positional notation. -/
def decimalValue : List Char → Nat
  | [] => 0
  | c :: cs => (c.toNat - '0'.toNat) * 10 ^ cs.length + decimalValue cs

/-- The lexicographic order on `(width, height, depth, refresh)`. -/
def tupleLess (a b : DisplayMode) : Prop :=
  a.1 < b.1 ∨ (a.1 = b.1 ∧ (a.2.1 < b.2.1 ∨ (a.2.1 = b.2.1 ∧
    (a.2.2.1 < b.2.2.1 ∨ (a.2.2.1 = b.2.2.1 ∧ a.2.2.2 < b.2.2.2)))))

/-- Whether a flag of `dmFields` is set in a fields indicator. -/
def hasFlag (fields flag : Nat) : Bool := fields &&& flag != 0

/-! ## A concrete machine

One attached display with one monitor, used to evaluate the program on
concrete inputs. -/

/-- The only display of `sampleOS`. -/
def sampleDisplay : DISPLAY_DEVICE := { DeviceName := "DISPLAY1", DeviceString := "Adapter" }

/-- The current mode of the display of `sampleOS`: 1280x720, 32 bits, 60 Hz, with
the four flags set in `dmFields`, as the system reports a current mode. -/
def sampleCurrent : DEVMODE :=
  { dmFields := DM_BITSPERPEL ||| DM_PELSWIDTH ||| DM_PELSHEIGHT ||| DM_DISPLAYFREQUENCY,
    dmPelsWidth := 1280, dmPelsHeight := 720, dmBitsPerPel := 32, dmDisplayFrequency := 60 }

/-- A machine with one display.  The mode enumeration reports one entry twice and
is not sorted; the change call rejects widths above 4096 as a bad mode. -/
def sampleOS : OS where
  displays := [sampleDisplay]
  monitors := fun _ => [{ DeviceName := "MONITOR1", DeviceString := "Panel" }]
  modes := fun _ =>
    [{ dmFields := 0, dmPelsWidth := 800, dmPelsHeight := 600, dmBitsPerPel := 32,
       dmDisplayFrequency := 60 },
     { dmFields := 0, dmPelsWidth := 640, dmPelsHeight := 480, dmBitsPerPel := 32,
       dmDisplayFrequency := 60 },
     { dmFields := 0, dmPelsWidth := 800, dmPelsHeight := 600, dmBitsPerPel := 32,
       dmDisplayFrequency := 60 },
     { dmFields := 0, dmPelsWidth := 800, dmPelsHeight := 600, dmBitsPerPel := 16,
       dmDisplayFrequency := 75 }]
  current := fun _ => some sampleCurrent
  change := fun _ mode =>
    if mode.dmPelsWidth ≤ 4096 then DISP_CHANGE_SUCCESSFUL else DISP_CHANGE_BADMODE

/-! ## Characters -/

theorem char_eq_of_toNat_eq {c d : Char} (h : c.toNat = d.toNat) : c = d := by
  apply Char.ext
  apply UInt32.ext
  exact h

theorem toNat_ofNat_small (n : Nat) (h : n < 55296) : (Char.ofNat n).toNat = n := by
  unfold Char.ofNat
  have hv : n.isValidChar := Or.inl h
  simp [hv, Char.ofNatAux, Char.toNat]
  rfl

theorem isDigit_iff (c : Char) : c.isDigit = true ↔ 48 ≤ c.toNat ∧ c.toNat ≤ 57 := by
  unfold Char.isDigit Char.toNat
  simp [UInt32.le_def, BitVec.le_def, UInt32.toNat]

theorem toLower_toNat (c : Char) :
    c.toLower.toNat = if 65 ≤ c.toNat ∧ c.toNat ≤ 90 then c.toNat + 32 else c.toNat := by
  unfold Char.toLower
  by_cases h : 65 ≤ c.toNat ∧ c.toNat ≤ 90
  · have h2 : c.toNat + 32 < 55296 := by omega
    simp [h, toNat_ofNat_small _ h2]
  · simp [h]

theorem toLower_of_isDigit {c : Char} (h : c.isDigit = true) : c.toLower = c := by
  rw [isDigit_iff] at h
  apply char_eq_of_toNat_eq
  rw [toLower_toNat]
  split
  · omega
  · rfl

theorem isDigit_toLower (c : Char) : c.toLower.isDigit = c.isDigit := by
  rw [Bool.eq_iff_iff, isDigit_iff, isDigit_iff, toLower_toNat]
  split <;> omega

/-! ## The matcher -/

theorem mem_plusAtom (p : Char → Bool) (t : List Char) :
    ∀ s : List Char, t ∈ plusAtom p s ↔ ∃ w, w ≠ [] ∧ (∀ c ∈ w, p c = true) ∧ s = w ++ t := by
  intro s
  induction s with
  | nil =>
    simp only [plusAtom, List.not_mem_nil, false_iff]
    rintro ⟨w, hw, -, h⟩
    cases w with
    | nil => exact hw rfl
    | cons a w => simp at h
  | cons c s ih =>
    by_cases hp : p c = true
    · simp only [plusAtom, hp, if_true, List.mem_append, List.mem_singleton, ih]
      constructor
      · rintro (⟨w, -, hall, rfl⟩ | rfl)
        · refine ⟨c :: w, by simp, ?_, by simp⟩
          intro d hd
          rcases List.mem_cons.1 hd with rfl | hd
          · exact hp
          · exact hall d hd
        · exact ⟨[c], by simp, by simpa using hp, by simp⟩
      · rintro ⟨w, hw, hall, h⟩
        cases w with
        | nil => exact absurd rfl hw
        | cons a w =>
          simp only [List.cons_append, List.cons.injEq] at h
          obtain ⟨rfl, rfl⟩ := h
          cases w with
          | nil => right; simp
          | cons b w =>
            left
            exact ⟨b :: w, by simp, fun d hd => hall d (List.mem_cons_of_mem _ hd), rfl⟩
    · simp only [plusAtom, hp, if_false, List.not_mem_nil, false_iff, Bool.false_eq_true]
      rintro ⟨w, hw, hall, h⟩
      cases w with
      | nil => exact hw rfl
      | cons a w =>
        simp only [List.cons_append, List.cons.injEq] at h
        obtain ⟨rfl, -⟩ := h
        exact hp (hall _ (List.mem_cons_self _ _))

theorem mem_run_digitsGroup (n : Nat) (ic : Bool) (s t : List Char) (c0 c : Captures) :
    (t, c) ∈ (digitsGroup n).run ic s c0 ↔
      ∃ w, w ≠ [] ∧ (∀ ch ∈ w, ch.isDigit = true) ∧ s = w ++ t ∧ c = (n, w) :: c0 := by
  simp only [digitsGroup, Regex.run, List.mem_map, Prod.mk.injEq, Atom.test, mem_plusAtom]
  constructor
  · rintro ⟨⟨t', c'⟩, ⟨t'', ⟨w, hw, hall, rfl⟩, h1⟩, h3, h4⟩
    simp only [Prod.mk.injEq] at h1 h3 h4
    obtain ⟨rfl, rfl⟩ := h1
    subst h3
    refine ⟨w, hw, hall, rfl, ?_⟩
    rw [← h4]
    simp
  · rintro ⟨w, hw, hall, rfl, rfl⟩
    exact ⟨(t, c0), ⟨t, ⟨w, hw, hall, rfl⟩, rfl⟩, rfl, by simp⟩

theorem mem_run_chr (l : Char) (s t : List Char) (c0 c : Captures) :
    (t, c) ∈ (Regex.atom (.chr l)).run true s c0 ↔
      ∃ ch, ch.toLower = l.toLower ∧ s = ch :: t ∧ c = c0 := by
  cases s with
  | nil => simp [Regex.run]
  | cons a s =>
    by_cases h : a.toLower = l.toLower
    · simp [Regex.run, Atom.test, h]
      constructor
      · rintro ⟨rfl, rfl⟩; exact ⟨a, h, ⟨rfl, rfl⟩, rfl⟩
      · rintro ⟨ch, -, ⟨rfl, rfl⟩, rfl⟩; exact ⟨rfl, rfl⟩
    · simp [Regex.run, Atom.test, h]
      rintro ch hch rfl
      exact absurd hch h

theorem mem_run_seq (ic : Bool) (r1 r2 : Regex) (s : List Char) (c0 : Captures)
    (p : List Char × Captures) :
    p ∈ (Regex.seq r1 r2).run ic s c0 ↔
      ∃ t1 c1, (t1, c1) ∈ r1.run ic s c0 ∧ p ∈ r2.run ic t1 c1 := by
  simp [Regex.run, List.mem_flatMap]

theorem mem_run_opt (ic : Bool) (r : Regex) (s : List Char) (c0 : Captures)
    (p : List Char × Captures) :
    p ∈ (Regex.opt r).run ic s c0 ↔ p ∈ r.run ic s c0 ∨ p = (s, c0) := by
  simp [Regex.run]

/-! ## Digit strings -/

theorem map_toLower_digits {w : List Char} (h : ∀ c ∈ w, c.isDigit = true) :
    w.map Char.toLower = w := by
  induction w with
  | nil => rfl
  | cons a w ih =>
    rw [List.map_cons, toLower_of_isDigit (h a (List.mem_cons_self _ _)),
      ih (fun c hc => h c (List.mem_cons_of_mem _ hc))]

theorem eq_of_map_toLower_digits {l w : List Char} (h : l.map Char.toLower = w)
    (hw : ∀ c ∈ w, c.isDigit = true) : l = w := by
  have hl : ∀ c ∈ l, c.isDigit = true := by
    intro c hc
    have : c.toLower ∈ w := h ▸ List.mem_map_of_mem _ hc
    rw [← isDigit_toLower]
    exact hw _ this
  rw [← h, map_toLower_digits hl]

theorem digits_append_inj : ∀ (W W' r r' : List Char),
    (∀ c ∈ W, c.isDigit = true) → (∀ c ∈ W', c.isDigit = true) →
    (∀ c ∈ r.head?, c.isDigit = false) → (∀ c ∈ r'.head?, c.isDigit = false) →
    W ++ r = W' ++ r' → W = W' ∧ r = r' := by
  intro W
  induction W with
  | nil =>
    intro W' r r' _ hW' hr _ h
    cases W' with
    | nil => exact ⟨rfl, by simpa using h⟩
    | cons a W' =>
      exfalso
      simp only [List.nil_append, List.cons_append] at h
      subst h
      have h1 := hr a (by simp)
      have h2 := hW' a (List.mem_cons_self _ _)
      rw [h1] at h2
      exact Bool.false_ne_true h2
  | cons a W ih =>
    intro W' r r' hW hW' hr hr' h
    cases W' with
    | nil =>
      exfalso
      simp only [List.nil_append, List.cons_append] at h
      subst h
      have h1 := hr' a (by simp)
      have h2 := hW a (List.mem_cons_self _ _)
      rw [h1] at h2
      exact Bool.false_ne_true h2
    | cons b W' =>
      simp only [List.cons_append, List.cons.injEq] at h
      obtain ⟨rfl, h⟩ := h
      obtain ⟨h1, h2⟩ := ih W' r r' (fun c hc => hW c (List.mem_cons_of_mem _ hc))
        (fun c hc => hW' c (List.mem_cons_of_mem _ hc)) hr hr' h
      exact ⟨by rw [h1], h2⟩

theorem optPart_head (sep : Char) (hsep : sep.isDigit = false) (D : Option (List Char))
    (r : List Char) (hr : ∀ c ∈ r.head?, c.isDigit = false) :
    ∀ c ∈ (optPart sep D ++ r).head?, c.isDigit = false := by
  cases D with
  | none => simpa [optPart] using hr
  | some d => simp [optPart, hsep]

theorem optPart_at_inj {R R' : Option (List Char)} (h : optPart '@' R = optPart '@' R') :
    R = R' := by
  cases R <;> cases R' <;> simp_all [optPart]

theorem fullFormWord_inj {W H W' H' : List Char} {D R D' R' : Option (List Char)}
    (hW : IsDigits W) (hH : IsDigits H) (hD : ∀ d ∈ D, IsDigits d) (hR : ∀ r ∈ R, IsDigits r)
    (hW' : IsDigits W') (hH' : IsDigits H') (hD' : ∀ d ∈ D', IsDigits d)
    (hR' : ∀ r ∈ R', IsDigits r)
    (h : fullFormWord W H D R = fullFormWord W' H' D' R') :
    W = W' ∧ H = H' ∧ D = D' ∧ R = R' := by
  unfold fullFormWord at h
  simp only [List.append_assoc, List.cons_append] at h
  have hx : ('x' : Char).isDigit = false := by decide
  have hat : ('@' : Char).isDigit = false := by decide
  obtain ⟨rfl, h1⟩ := digits_append_inj W W' _ _ hW.2 hW'.2 (by simp [hx]) (by simp [hx]) h
  simp only [List.cons.injEq, true_and] at h1
  have hnil : ∀ c ∈ ([] : List Char).head?, c.isDigit = false := by simp
  obtain ⟨rfl, h2⟩ := digits_append_inj H H' _ _ hH.2 hH'.2
    (optPart_head 'x' hx D _ (by simpa using optPart_head '@' hat R [] hnil))
    (optPart_head 'x' hx D' _ (by simpa using optPart_head '@' hat R' [] hnil)) h1
  refine ⟨rfl, rfl, ?_⟩
  cases D with
  | none =>
    cases D' with
    | none => exact ⟨rfl, optPart_at_inj (by simpa [optPart] using h2)⟩
    | some d' => cases R <;> simp [optPart] at h2
  | some d =>
    cases D' with
    | none => cases R' <;> simp [optPart] at h2
    | some d' =>
      simp only [optPart, List.cons_append, List.cons.injEq, true_and] at h2
      obtain ⟨rfl, h3⟩ := digits_append_inj d d' _ _ (hD d rfl).2 (hD' d' rfl).2
        (by simpa using optPart_head '@' hat R [] hnil)
        (by simpa using optPart_head '@' hat R' [] hnil) h2
      exact ⟨rfl, optPart_at_inj h3⟩

theorem toLower_x : ('x' : Char).toLower = 'x' := by decide

theorem toLower_at : ('@' : Char).toLower = '@' := by decide

theorem modeRegex_sound {s : List Char} {c : Captures}
    (h : ([], c) ∈ modeRegex.run true s []) :
    ∃ W H D R, IsDigits W ∧ IsDigits H ∧ (∀ d ∈ D, IsDigits d) ∧ (∀ r ∈ R, IsDigits r) ∧
      s.map Char.toLower = fullFormWord W H D R ∧
      c.lookup 1 = some W ∧ c.lookup 2 = some H ∧ c.lookup 3 = D ∧ c.lookup 4 = R := by
  simp only [modeRegex, mem_run_seq, mem_run_opt, mem_run_digitsGroup, mem_run_chr,
    toLower_x, toLower_at, Prod.mk.injEq] at h
  obtain ⟨t1, c1, ⟨W, hW0, hW, rfl, rfl⟩, t2, c2, ⟨x1, hx1, rfl, rfl⟩, t3, c3,
    ⟨H, hH0, hH, rfl, rfl⟩, t4, c4, hD, hR⟩ := h
  rcases hD with ⟨t5, c5, ⟨x2, hx2, rfl, rfl⟩, D, hD0, hD, rfl, rfl⟩ | ⟨rfl, rfl⟩
  · rcases hR with ⟨t6, c6, ⟨a, ha, rfl, rfl⟩, R, hR0, hR, rfl, rfl⟩ | ⟨rfl, rfl⟩
    · refine ⟨W, H, some D, some R, ⟨hW0, hW⟩, ⟨hH0, hH⟩, ?_, ?_, ?_, rfl, rfl, rfl, rfl⟩
      · intro d hd; cases hd; exact ⟨hD0, hD⟩
      · intro r hr; cases hr; exact ⟨hR0, hR⟩
      · simp [fullFormWord, optPart, map_toLower_digits hW, map_toLower_digits hH, map_toLower_digits hD,
          map_toLower_digits hR, hx1, hx2, ha]
    · refine ⟨W, H, some D, none, ⟨hW0, hW⟩, ⟨hH0, hH⟩, ?_, ?_, ?_, rfl, rfl, rfl, rfl⟩
      · intro d hd; cases hd; exact ⟨hD0, hD⟩
      · intro r hr; cases hr
      · simp [fullFormWord, optPart, map_toLower_digits hW, map_toLower_digits hH, map_toLower_digits hD,
          hx1, hx2]
  · rcases hR with ⟨t6, c6, ⟨a, ha, rfl, rfl⟩, R, hR0, hR, rfl, rfl⟩ | ⟨rfl, rfl⟩
    · refine ⟨W, H, none, some R, ⟨hW0, hW⟩, ⟨hH0, hH⟩, ?_, ?_, ?_, rfl, rfl, rfl, rfl⟩
      · intro d hd; cases hd
      · intro r hr; cases hr; exact ⟨hR0, hR⟩
      · simp [fullFormWord, optPart, map_toLower_digits hW, map_toLower_digits hH, map_toLower_digits hR,
          hx1, ha]
    · refine ⟨W, H, none, none, ⟨hW0, hW⟩, ⟨hH0, hH⟩, ?_, ?_, ?_, rfl, rfl, rfl, rfl⟩
      · intro d hd; cases hd
      · intro r hr; cases hr
      · simp [fullFormWord, optPart, map_toLower_digits hW, map_toLower_digits hH, hx1]

theorem map_toLower_split_digits {s W r : List Char} (hW : ∀ c ∈ W, c.isDigit = true)
    (h : s.map Char.toLower = W ++ r) : ∃ r', s = W ++ r' ∧ r'.map Char.toLower = r := by
  obtain ⟨l1, l2, rfl, h1, h2⟩ := List.map_eq_append_iff.1 h
  exact ⟨l2, by rw [eq_of_map_toLower_digits h1 hW], h2⟩

theorem map_toLower_split_cons {s r : List Char} {a : Char}
    (h : s.map Char.toLower = a :: r) :
    ∃ ch r', s = ch :: r' ∧ ch.toLower = a ∧ r'.map Char.toLower = r := by
  obtain ⟨ch, r', rfl, h1, h2⟩ := List.map_eq_cons_iff.1 h
  exact ⟨ch, r', rfl, h1, h2⟩

theorem modeRegex_exists {s W H : List Char} {D R : Option (List Char)}
    (hW : IsDigits W) (hH : IsDigits H) (hD : ∀ d ∈ D, IsDigits d) (hR : ∀ r ∈ R, IsDigits r)
    (h : s.map Char.toLower = fullFormWord W H D R) :
    ∃ c, ([], c) ∈ modeRegex.run true s [] := by
  unfold fullFormWord at h
  simp only [List.append_assoc, List.cons_append] at h
  obtain ⟨s1, rfl, h1⟩ := map_toLower_split_digits hW.2 h
  obtain ⟨x1, s2, rfl, hx1, h2⟩ := map_toLower_split_cons h1
  obtain ⟨s3, rfl, h3⟩ := map_toLower_split_digits hH.2 h2
  simp only [modeRegex, mem_run_seq, mem_run_opt, mem_run_digitsGroup, mem_run_chr,
    toLower_x, toLower_at, Prod.mk.injEq]
  cases D with
  | none =>
    cases R with
    | none =>
      simp only [optPart, List.append_nil, List.map_eq_nil_iff] at h3
      subst h3
      exact ⟨_, _, _, ⟨W, hW.1, hW.2, rfl, rfl⟩, _, _, ⟨x1, hx1, rfl, rfl⟩, _, _,
        ⟨H, hH.1, hH.2, rfl, rfl⟩, _, _, Or.inr ⟨rfl, rfl⟩, Or.inr ⟨rfl, rfl⟩⟩
    | some r =>
      simp only [optPart, List.nil_append] at h3
      obtain ⟨a, s4, rfl, ha, h4⟩ := map_toLower_split_cons h3
      have h5 := eq_of_map_toLower_digits h4 (hR r rfl).2
      subst h5
      exact ⟨_, _, _, ⟨W, hW.1, hW.2, rfl, rfl⟩, _, _, ⟨x1, hx1, rfl, rfl⟩, _, _,
        ⟨H, hH.1, hH.2, rfl, rfl⟩, _, _, Or.inr ⟨rfl, rfl⟩,
        Or.inl ⟨_, _, ⟨a, ha, rfl, rfl⟩, s4, (hR s4 rfl).1, (hR s4 rfl).2, by simp, rfl⟩⟩
  | some d =>
    simp only [optPart, List.cons_append] at h3
    obtain ⟨x2, s4, rfl, hx2, h4⟩ := map_toLower_split_cons h3
    obtain ⟨s5, rfl, h5⟩ := map_toLower_split_digits (hD d rfl).2 h4
    cases R with
    | none =>
      simp only [List.map_eq_nil_iff] at h5
      subst h5
      exact ⟨_, _, _, ⟨W, hW.1, hW.2, rfl, rfl⟩, _, _, ⟨x1, hx1, rfl, rfl⟩, _, _,
        ⟨H, hH.1, hH.2, rfl, rfl⟩, _, _,
        Or.inl ⟨_, _, ⟨x2, hx2, rfl, rfl⟩, d, (hD d rfl).1, (hD d rfl).2, by simp, rfl⟩,
        Or.inr ⟨rfl, rfl⟩⟩
    | some r =>
      obtain ⟨a, s6, rfl, ha, h6⟩ := map_toLower_split_cons h5
      have h7 := eq_of_map_toLower_digits h6 (hR r rfl).2
      subst h7
      exact ⟨_, _, _, ⟨W, hW.1, hW.2, rfl, rfl⟩, _, _, ⟨x1, hx1, rfl, rfl⟩, _, _,
        ⟨H, hH.1, hH.2, rfl, rfl⟩, _, _,
        Or.inl ⟨_, _, ⟨x2, hx2, rfl, rfl⟩, d, (hD d rfl).1, (hD d rfl).2, rfl, rfl⟩,
        Or.inl ⟨_, _, ⟨a, ha, rfl, rfl⟩, s6, (hR s6 rfl).1, (hR s6 rfl).2, by simp, rfl⟩⟩

theorem refreshRateRegex_sound {s : List Char} {c : Captures}
    (h : ([], c) ∈ refreshRateRegex.run true s []) :
    ∃ R, IsDigits R ∧ s.map Char.toLower = '@' :: R ∧ c.lookup 1 = some R := by
  simp only [refreshRateRegex, mem_run_seq, mem_run_digitsGroup, mem_run_chr,
    toLower_at] at h
  obtain ⟨t1, c1, ⟨a, ha, rfl, rfl⟩, R, hR0, hR, rfl, rfl⟩ := h
  exact ⟨R, ⟨hR0, hR⟩, by simp [map_toLower_digits hR, ha], rfl⟩

theorem refreshRateRegex_exists {s R : List Char} (hR : IsDigits R)
    (h : s.map Char.toLower = '@' :: R) : ∃ c, ([], c) ∈ refreshRateRegex.run true s [] := by
  obtain ⟨a, s1, rfl, ha, h1⟩ := map_toLower_split_cons h
  have h2 := eq_of_map_toLower_digits h1 hR.2
  subst h2
  simp only [refreshRateRegex, mem_run_seq, mem_run_digitsGroup, mem_run_chr, toLower_at]
  exact ⟨_, _, _, ⟨a, ha, rfl, rfl⟩, s1, hR.1, hR.2, by simp, rfl⟩

/-! ## `regex_match` -/

theorem regex_match_mem {s : String} {re : Regex} {ic : Bool} {c : Captures}
    (h : regex_match s re ic = some c) : ([], c) ∈ re.run ic s.data [] := by
  unfold regex_match at h
  obtain ⟨p, hp, rfl⟩ := Option.map_eq_some'.1 h
  have h1 := List.mem_of_find?_eq_some hp
  have h2 := List.find?_some hp
  have h3 : p.1 = [] := by simpa using h2
  have h4 : p = ([], p.2) := by rw [← h3]
  rw [← h4]
  exact h1

theorem regex_match_of_mem {s : String} {re : Regex} {ic : Bool} {c : Captures}
    (h : ([], c) ∈ re.run ic s.data []) : ∃ c', regex_match s re ic = some c' := by
  unfold regex_match
  have h1 : ((re.run ic s.data []).find? (fun p => p.1.isEmpty)).isSome = true :=
    List.find?_isSome.2 ⟨([], c), h, rfl⟩
  obtain ⟨p, hp⟩ := Option.isSome_iff_exists.1 h1
  exact ⟨p.2, by rw [hp]; rfl⟩

theorem optPart_map_toLower (sep : Char) (hsep : sep.toLower = sep) (X : Option (List Char))
    (hX : ∀ d ∈ X, IsDigits d) : (optPart sep X).map Char.toLower = optPart sep X := by
  cases X with
  | none => rfl
  | some d => simp [optPart, hsep, map_toLower_digits (hX d rfl).2]

theorem fullFormWord_map_toLower {W H : List Char} {D R : Option (List Char)}
    (hW : IsDigits W) (hH : IsDigits H) (hD : ∀ d ∈ D, IsDigits d) (hR : ∀ r ∈ R, IsDigits r) :
    (fullFormWord W H D R).map Char.toLower = fullFormWord W H D R := by
  simp only [fullFormWord, List.map_append, List.map_cons, map_toLower_digits hW.2,
    map_toLower_digits hH.2, toLower_x, optPart_map_toLower 'x' toLower_x D hD,
    optPart_map_toLower '@' toLower_at R hR]

theorem refreshWord_map_toLower {R : List Char} (hR : IsDigits R) :
    ('@' :: R).map Char.toLower = '@' :: R := by
  simp [toLower_at, map_toLower_digits hR.2]

theorem modeRegex_match_sound {s : String} {c : Captures}
    (h : regex_match s modeRegex regexFlags = some c) :
    ∃ W H D R, IsDigits W ∧ IsDigits H ∧ (∀ d ∈ D, IsDigits d) ∧ (∀ r ∈ R, IsDigits r) ∧
      s.data.map Char.toLower = fullFormWord W H D R ∧
      c.lookup 1 = some W ∧ c.lookup 2 = some H ∧ c.lookup 3 = D ∧ c.lookup 4 = R :=
  modeRegex_sound (regex_match_mem h)

theorem modeRegex_match_complete {s : String} {W H : List Char} {D R : Option (List Char)}
    (hW : IsDigits W) (hH : IsDigits H) (hD : ∀ d ∈ D, IsDigits d) (hR : ∀ r ∈ R, IsDigits r)
    (h : s.data.map Char.toLower = fullFormWord W H D R) :
    ∃ c, regex_match s modeRegex regexFlags = some c ∧
      c.lookup 1 = some W ∧ c.lookup 2 = some H ∧ c.lookup 3 = D ∧ c.lookup 4 = R := by
  obtain ⟨c0, hc0⟩ := modeRegex_exists hW hH hD hR h
  obtain ⟨c, hc⟩ := regex_match_of_mem (s := s) hc0
  obtain ⟨W', H', D', R', hW', hH', hD', hR', hs, h1, h2, h3, h4⟩ := modeRegex_match_sound hc
  obtain ⟨rfl, rfl, rfl, rfl⟩ := fullFormWord_inj hW hH hD hR hW' hH' hD' hR' (h ▸ hs)
  exact ⟨c, hc, h1, h2, h3, h4⟩

theorem modeRegex_match_none_iff (s : String) :
    regex_match s modeRegex regexFlags = none ↔ ¬ MatchesFullForm s := by
  constructor
  · rintro h ⟨W, H, D, R, hW, hH, hD, hR, hs⟩
    rw [fullFormWord_map_toLower hW hH hD hR] at hs
    obtain ⟨c, hc, -⟩ := modeRegex_match_complete hW hH hD hR hs
    rw [h] at hc
    cases hc
  · intro h
    cases hm : regex_match s modeRegex regexFlags with
    | none => rfl
    | some c =>
      exfalso
      obtain ⟨W, H, D, R, hW, hH, hD, hR, hs, -⟩ := modeRegex_match_sound hm
      exact h ⟨W, H, D, R, hW, hH, hD, hR, by rw [fullFormWord_map_toLower hW hH hD hR]; exact hs⟩

theorem refreshRateRegex_match_sound {s : String} {c : Captures}
    (h : regex_match s refreshRateRegex regexFlags = some c) :
    ∃ R, IsDigits R ∧ s.data.map Char.toLower = '@' :: R ∧ c.lookup 1 = some R :=
  refreshRateRegex_sound (regex_match_mem h)

theorem refreshRateRegex_match_complete {s : String} {R : List Char} (hR : IsDigits R)
    (h : s.data.map Char.toLower = '@' :: R) :
    ∃ c, regex_match s refreshRateRegex regexFlags = some c ∧ c.lookup 1 = some R := by
  obtain ⟨c0, hc0⟩ := refreshRateRegex_exists hR h
  obtain ⟨c, hc⟩ := regex_match_of_mem (s := s) hc0
  obtain ⟨R', -, hs, h1⟩ := refreshRateRegex_match_sound hc
  rw [h] at hs
  simp only [List.cons.injEq, true_and] at hs
  subst hs
  exact ⟨c, hc, h1⟩

theorem refreshRateRegex_match_none_iff (s : String) :
    regex_match s refreshRateRegex regexFlags = none ↔ ¬ MatchesRefreshForm s := by
  constructor
  · rintro h ⟨R, hR, hs⟩
    rw [refreshWord_map_toLower hR] at hs
    obtain ⟨c, hc, -⟩ := refreshRateRegex_match_complete hR hs
    rw [h] at hc
    cases hc
  · intro h
    cases hm : regex_match s refreshRateRegex regexFlags with
    | none => rfl
    | some c =>
      exfalso
      obtain ⟨R, hR, hs, -⟩ := refreshRateRegex_match_sound hm
      exact h ⟨R, hR, by rw [refreshWord_map_toLower hR]; exact hs⟩

/-- A string of the refresh-only form is not of the full form. -/
theorem not_full_of_refresh {s : String} (h : MatchesRefreshForm s) : ¬ MatchesFullForm s := by
  rintro ⟨W, H, D, R, hW, hH, hD, hR, hs⟩
  obtain ⟨R', hR', hs'⟩ := h
  rw [fullFormWord_map_toLower hW hH hD hR] at hs
  rw [refreshWord_map_toLower hR', hs] at hs'
  obtain ⟨hW0, hWd⟩ := hW
  cases W with
  | nil => exact hW0 rfl
  | cons a W =>
    simp only [fullFormWord, List.cons_append, List.append_assoc, List.cons.injEq] at hs'
    have := hWd a (List.mem_cons_self _ _)
    rw [hs'.1] at this
    exact absurd this (by decide)

/-! ## `atoi` on digit strings -/

theorem atoiDigits_eq (w : List Char) (hw : ∀ c ∈ w, c.isDigit = true) :
    ∀ acc, atoiDigits acc w = acc * 10 ^ w.length + decimalValue w := by
  induction w with
  | nil => intro acc; simp [atoiDigits, decimalValue]
  | cons a w ih =>
    intro acc
    have ha := hw a (List.mem_cons_self _ _)
    simp only [atoiDigits, ha, if_true, decimalValue, List.length_cons]
    rw [ih (fun c hc => hw c (List.mem_cons_of_mem _ hc))]
    ring

theorem isspace_of_isDigit {c : Char} (h : c.isDigit = true) : isspace c = false := by
  rw [isDigit_iff] at h
  have h1 : ∀ d : Char, d.toNat < 48 → (c == d) = false := by
    intro d hd
    rw [beq_eq_false_iff_ne]
    intro hcd
    rw [hcd] at h
    omega
  simp only [isspace, h1 ' ' (by decide), h1 '\t' (by decide), h1 '\n' (by decide),
    h1 '\x0b' (by decide), h1 '\x0c' (by decide), h1 '\r' (by decide), Bool.or_self]

theorem atoi_digits {w : List Char} (hw : ∀ c ∈ w, c.isDigit = true) :
    atoi w = min INT_MAX (decimalValue w : Int) := by
  cases w with
  | nil => simp [atoi, atoiDigits, decimalValue]
  | cons a w =>
    have ha := hw a (List.mem_cons_self _ _)
    have hsp := isspace_of_isDigit ha
    have hdrop : (a :: w).dropWhile isspace = a :: w := by simp [List.dropWhile, hsp]
    have hval := atoiDigits_eq (a :: w) hw 0
    simp only [zero_mul, zero_add] at hval
    unfold atoi
    rw [hdrop]
    split
    · rename_i cs heq
      simp only [List.cons.injEq] at heq
      rw [heq.1] at ha
      exact absurd ha (by decide)
    · rename_i cs heq
      simp only [List.cons.injEq] at heq
      rw [heq.1] at ha
      exact absurd ha (by decide)
    · rw [hval]

theorem toDWORD_atoi_digits {w : List Char} (hw : ∀ c ∈ w, c.isDigit = true)
    (hfit : (decimalValue w : Int) ≤ INT_MAX) : toDWORD (atoi w) = decimalValue w := by
  rw [atoi_digits hw, min_eq_right hfit]
  unfold toDWORD
  unfold INT_MAX at hfit
  have h1 : ((decimalValue w : Int)) % 2 ^ 32 = decimalValue w := by
    apply Int.emod_eq_of_lt <;> omega
  rw [h1]
  simp

/-! ## `FindDisplay` -/

theorem FindDisplayLoop_fst (displayIndex : Int) (l : List DISPLAY_DEVICE) :
    ∀ i : Nat, (FindDisplayLoop displayIndex i l).1 =
      if (i : Int) ≤ displayIndex then l[(displayIndex - i).toNat]? else none := by
  induction l with
  | nil => intro i; simp [FindDisplayLoop]
  | cons d l ih =>
    intro i
    by_cases h : (i : Int) = displayIndex
    · subst h
      simp [FindDisplayLoop]
    · simp only [FindDisplayLoop, h, if_false, ih]
      by_cases h2 : (i : Int) ≤ displayIndex
      · have h3 : ((i + 1 : Nat) : Int) ≤ displayIndex := by omega
        have h4 : (displayIndex - (i : Int)).toNat = (displayIndex - ((i + 1 : Nat) : Int)).toNat + 1 := by
          omega
        rw [if_pos h3, if_pos h2, h4, List.getElem?_cons_succ]
      · have h3 : ¬ ((i + 1 : Nat) : Int) ≤ displayIndex := by omega
        rw [if_neg h3, if_neg h2]

theorem FindDisplay_fst (os : OS) (displayIndex : Int) :
    (FindDisplay os displayIndex).1 =
      if 0 ≤ displayIndex then os.displays[displayIndex.toNat]? else none := by
  unfold FindDisplay
  rw [FindDisplayLoop_fst]
  simp

theorem FindDisplayLoop_calls (displayIndex : Int) (l : List DISPLAY_DEVICE) :
    ∀ i : Nat, ∀ c ∈ (FindDisplayLoop displayIndex i l).2,
      ∃ j, c = OsCall.EnumDisplayDevices none j := by
  induction l with
  | nil =>
    intro i c hc
    simp only [FindDisplayLoop, List.mem_singleton] at hc
    exact ⟨i, hc⟩
  | cons d l ih =>
    intro i c hc
    by_cases h : (i : Int) = displayIndex
    · simp only [FindDisplayLoop, h, if_true, List.mem_singleton] at hc
      exact ⟨i, hc⟩
    · simp only [FindDisplayLoop, h, if_false, List.mem_cons] at hc
      rcases hc with hc | hc
      · exact ⟨i, hc⟩
      · exact ih (i + 1) c hc

theorem FindDisplay_calls (os : OS) (displayIndex : Int) :
    ∀ c ∈ (FindDisplay os displayIndex).2, ∃ j, c = OsCall.EnumDisplayDevices none j :=
  FindDisplayLoop_calls displayIndex os.displays 0

theorem FindDisplay_calls_ne_nil (os : OS) (displayIndex : Int) :
    (FindDisplay os displayIndex).2 ≠ [] := by
  unfold FindDisplay
  cases os.displays with
  | nil => simp [FindDisplayLoop]
  | cons d l =>
    simp only [FindDisplayLoop]
    split <;> simp

theorem changeRequests_append (l1 l2 : List OsCall) :
    changeRequests (l1 ++ l2) = changeRequests l1 ++ changeRequests l2 := by
  induction l1 with
  | nil => rfl
  | cons c l1 ih => cases c <;> simp [changeRequests, ih]

theorem changeRequests_eq_nil {l : List OsCall}
    (h : ∀ c ∈ l, ∀ n m, c ≠ OsCall.ChangeDisplaySettingsEx n m) : changeRequests l = [] := by
  induction l with
  | nil => rfl
  | cons c l ih =>
    cases c with
    | ChangeDisplaySettingsEx n m => exact absurd rfl (h _ (List.mem_cons_self _ _) n m)
    | EnumDisplayDevices a b =>
      simp only [changeRequests]
      exact ih (fun c hc => h c (List.mem_cons_of_mem _ hc))
    | EnumDisplaySettings a b =>
      simp only [changeRequests]
      exact ih (fun c hc => h c (List.mem_cons_of_mem _ hc))

theorem changeRequests_FindDisplay (os : OS) (displayIndex : Int) :
    changeRequests (FindDisplay os displayIndex).2 = [] := by
  apply changeRequests_eq_nil
  intro c hc n m hcm
  obtain ⟨j, hj⟩ := FindDisplay_calls os displayIndex c hc
  rw [hj] at hcm
  cases hcm

/-! ## The parsing block -/

theorem applyModeString_full (base : DEVMODE) {s : String} {W H : List Char}
    {D R : Option (List Char)}
    (hW : IsDigits W) (hH : IsDigits H) (hD : ∀ d ∈ D, IsDigits d) (hR : ∀ r ∈ R, IsDigits r)
    (hs : s.data.map Char.toLower = fullFormWord W H D R) :
    applyModeString base s = some
      { dmFields :=
          match D, R with
          | _, some _ => DM_DISPLAYFREQUENCY
          | some _, none => DM_BITSPERPEL
          | none, none => base.dmFields ||| DM_PELSWIDTH ||| DM_PELSHEIGHT,
        dmPelsWidth := toDWORD (atoi W),
        dmPelsHeight := toDWORD (atoi H),
        dmBitsPerPel :=
          match D with
          | some d => toDWORD (atoi d)
          | none => base.dmBitsPerPel,
        dmDisplayFrequency :=
          match R with
          | some r => toDWORD (atoi r)
          | none => base.dmDisplayFrequency } := by
  obtain ⟨c, hc, h1, h2, h3, h4⟩ := modeRegex_match_complete hW hH hD hR hs
  unfold applyModeString
  rw [hc]
  cases D <;> cases R <;> simp [Captures.matched, Captures.str, h1, h2, h3, h4]

theorem applyModeString_refresh (base : DEVMODE) {s : String} {R : List Char}
    (hR : IsDigits R) (hs : s.data.map Char.toLower = '@' :: R) :
    applyModeString base s = some
      { base with dmFields := DM_DISPLAYFREQUENCY, dmDisplayFrequency := toDWORD (atoi R) } := by
  have hform : MatchesRefreshForm s := ⟨R, hR, by rw [refreshWord_map_toLower hR]; exact hs⟩
  have hnone := (modeRegex_match_none_iff s).2 (not_full_of_refresh hform)
  obtain ⟨c, hc, h1⟩ := refreshRateRegex_match_complete hR hs
  unfold applyModeString
  rw [hnone, hc]
  simp [Captures.str, h1]

theorem applyModeString_eq_none_iff (base : DEVMODE) (s : String) :
    applyModeString base s = none ↔ ¬ MatchesFullForm s ∧ ¬ MatchesRefreshForm s := by
  rw [← modeRegex_match_none_iff, ← refreshRateRegex_match_none_iff]
  unfold applyModeString
  cases h1 : regex_match s modeRegex regexFlags with
  | some c => simp
  | none =>
    cases h2 : regex_match s refreshRateRegex regexFlags with
    | some c => simp
    | none => simp

/-! ## `SetDisplayMode` after the display was found and the baseline read -/

theorem SetDisplayMode_of_reject {os : OS} {displayIndex : Int} {s : String}
    {dev : DISPLAY_DEVICE} {base : DEVMODE}
    (hfind : (FindDisplay os displayIndex).1 = some dev)
    (hcur : os.current dev.DeviceName = some base)
    (happ : applyModeString base s = none) :
    SetDisplayMode os displayIndex s =
      { code := EXIT_FAILURE, out := "",
        err := "Error: Invalid mode string: " ++ s ++ "\n",
        calls := (FindDisplay os displayIndex).2
          ++ [.EnumDisplaySettings dev.DeviceName ENUM_CURRENT_SETTINGS] } := by
  unfold SetDisplayMode
  simp only [hfind, hcur, happ]

theorem SetDisplayMode_of_apply {os : OS} {displayIndex : Int} {s : String}
    {dev : DISPLAY_DEVICE} {base m : DEVMODE}
    (hfind : (FindDisplay os displayIndex).1 = some dev)
    (hcur : os.current dev.DeviceName = some base)
    (happ : applyModeString base s = some m) :
    SetDisplayMode os displayIndex s =
      { code := if os.change dev.DeviceName m ≠ DISP_CHANGE_SUCCESSFUL then EXIT_FAILURE
          else EXIT_SUCCESS,
        out := "",
        err := if os.change dev.DeviceName m ≠ DISP_CHANGE_SUCCESSFUL then
            "Error: Failed to change display settings: "
              ++ GetChangeDisplaySettingsErrorMessage (os.change dev.DeviceName m) ++ "\n"
          else "",
        calls := (FindDisplay os displayIndex).2
          ++ [.EnumDisplaySettings dev.DeviceName ENUM_CURRENT_SETTINGS]
          ++ [.ChangeDisplaySettingsEx dev.DeviceName m] } := by
  unfold SetDisplayMode
  simp only [hfind, hcur, happ]
  split <;> rfl

theorem changeRequests_of_apply {os : OS} {displayIndex : Int} {s : String}
    {dev : DISPLAY_DEVICE} {base m : DEVMODE}
    (hfind : (FindDisplay os displayIndex).1 = some dev)
    (hcur : os.current dev.DeviceName = some base)
    (happ : applyModeString base s = some m) :
    changeRequests (SetDisplayMode os displayIndex s).calls = [(dev.DeviceName, m)] := by
  rw [SetDisplayMode_of_apply hfind hcur happ]
  simp [changeRequests_append, changeRequests_FindDisplay, changeRequests]

theorem changeRequests_of_reject {os : OS} {displayIndex : Int} {s : String}
    {dev : DISPLAY_DEVICE} {base : DEVMODE}
    (hfind : (FindDisplay os displayIndex).1 = some dev)
    (hcur : os.current dev.DeviceName = some base)
    (happ : applyModeString base s = none) :
    changeRequests (SetDisplayMode os displayIndex s).calls = [] := by
  rw [SetDisplayMode_of_reject hfind hcur happ]
  simp [changeRequests_append, changeRequests_FindDisplay, changeRequests]

/-! ## The ordered set of `ListDisplayModes` -/

theorem lt_iff_tupleLess (a b : DisplayMode) : DisplayMode.lt a b = true ↔ tupleLess a b := by
  simp only [DisplayMode.lt, tupleLess, Bool.or_eq_true, Bool.and_eq_true, decide_eq_true_eq,
    Bool.not_eq_true', decide_eq_false_iff_not]
  omega

theorem tupleLess_trans {a b c : DisplayMode} (h1 : tupleLess a b) (h2 : tupleLess b c) :
    tupleLess a c := by
  unfold tupleLess at *
  omega

theorem tupleLess_irrefl (a : DisplayMode) : ¬ tupleLess a a := by
  unfold tupleLess
  omega

theorem eq_of_not_tupleLess {a b : DisplayMode} (h1 : ¬ tupleLess a b) (h2 : ¬ tupleLess b a) :
    a = b := by
  unfold tupleLess at *
  obtain ⟨a1, a2, a3, a4⟩ := a
  obtain ⟨b1, b2, b3, b4⟩ := b
  simp only [Prod.mk.injEq]
  simp only at h1 h2
  omega

theorem mem_setInsert (x t : DisplayMode) (l : List DisplayMode) :
    t ∈ setInsert x l ↔ t = x ∨ t ∈ l := by
  induction l with
  | nil => simp [setInsert]
  | cons y ys ih =>
    unfold setInsert
    split
    · simp
    · rename_i h1
      split
      · simp only [List.mem_cons, ih]
        tauto
      · rename_i h2
        rw [lt_iff_tupleLess] at h1 h2
        have hxy := eq_of_not_tupleLess h1 h2
        subst hxy
        simp

theorem pairwise_setInsert (x : DisplayMode) (l : List DisplayMode)
    (hl : l.Pairwise tupleLess) : (setInsert x l).Pairwise tupleLess := by
  induction l with
  | nil => simp [setInsert]
  | cons y ys ih =>
    rw [List.pairwise_cons] at hl
    unfold setInsert
    split
    · rename_i h1
      rw [lt_iff_tupleLess] at h1
      refine List.pairwise_cons.2 ⟨?_, List.pairwise_cons.2 hl⟩
      intro z hz
      rcases List.mem_cons.1 hz with rfl | hz
      · exact h1
      · exact tupleLess_trans h1 (hl.1 z hz)
    · split
      · rename_i h2
        rw [lt_iff_tupleLess] at h2
        refine List.pairwise_cons.2 ⟨?_, ih hl.2⟩
        intro z hz
        rcases (mem_setInsert x z ys).1 hz with rfl | hz
        · exact h2
        · exact hl.1 z hz
      · exact List.pairwise_cons.2 hl

theorem EnumModesLoop_fst (deviceName : String) (l : List DEVMODE) :
    ∀ (i : Nat) (acc : List DisplayMode), (EnumModesLoop deviceName i l acc).1 =
      l.foldl (fun set mode => setInsert (modeTuple mode) set) acc := by
  induction l with
  | nil => intro i acc; rfl
  | cons m l ih => intro i acc; simp only [EnumModesLoop, List.foldl_cons, ih]

theorem pairwise_foldl_setInsert (l : List DEVMODE) :
    ∀ acc : List DisplayMode, acc.Pairwise tupleLess →
      (l.foldl (fun set mode => setInsert (modeTuple mode) set) acc).Pairwise tupleLess := by
  induction l with
  | nil => intro acc h; exact h
  | cons m l ih => intro acc h; exact ih _ (pairwise_setInsert _ _ h)

theorem mem_foldl_setInsert (t : DisplayMode) (l : List DEVMODE) :
    ∀ acc : List DisplayMode,
      t ∈ l.foldl (fun set mode => setInsert (modeTuple mode) set) acc ↔
        t ∈ l.map modeTuple ∨ t ∈ acc := by
  induction l with
  | nil => intro acc; simp
  | cons m l ih =>
    intro acc
    simp only [List.foldl_cons, ih, mem_setInsert, List.map_cons, List.mem_cons]
    tauto

theorem nodup_of_pairwise_tupleLess {l : List DisplayMode} (h : l.Pairwise tupleLess) :
    l.Nodup := by
  unfold List.Nodup
  refine h.imp ?_
  intro a b hab heq
  subst heq
  exact tupleLess_irrefl a hab

theorem toInt_of_lt {v : Nat} (h : v < 2 ^ 31) : toInt v = (v : Int) := by
  have h1 : v % 2 ^ 32 = v := Nat.mod_eq_of_lt (by omega)
  unfold toInt
  rw [h1, if_pos h]

/-! ## Flags -/

theorem hasFlag_or_of_disjoint (a b flag : Nat) (h : b &&& flag = 0) :
    hasFlag (a ||| b) flag = hasFlag a flag := by
  unfold hasFlag
  rw [Nat.and_distrib_right, h, Nat.or_zero]

/-! ## The parsing block, by capture group -/

theorem applyModeString_of_match (base : DEVMODE) {s : String} {m : Captures}
    (hm : regex_match s modeRegex regexFlags = some m) :
    applyModeString base s = some
      { dmFields :=
          if m.matched 4 then DM_DISPLAYFREQUENCY
          else if m.matched 3 then DM_BITSPERPEL
          else base.dmFields ||| DM_PELSWIDTH ||| DM_PELSHEIGHT,
        dmPelsWidth := toDWORD (atoi (m.str 1)),
        dmPelsHeight := toDWORD (atoi (m.str 2)),
        dmBitsPerPel := if m.matched 3 then toDWORD (atoi (m.str 3)) else base.dmBitsPerPel,
        dmDisplayFrequency :=
          if m.matched 4 then toDWORD (atoi (m.str 4)) else base.dmDisplayFrequency } := by
  unfold applyModeString
  rw [hm]
  cases h3 : m.matched 3 <;> cases h4 : m.matched 4 <;> simp [h3, h4]

theorem applyModeString_of_no_match {base req : DEVMODE} {s : String}
    (hm : regex_match s modeRegex regexFlags = none) (h : applyModeString base s = some req) :
    ∃ m, regex_match s refreshRateRegex regexFlags = some m ∧
      req = { base with dmFields := DM_DISPLAYFREQUENCY,
                        dmDisplayFrequency := toDWORD (atoi (m.str 1)) } := by
  unfold applyModeString at h
  rw [hm] at h
  cases h2 : regex_match s refreshRateRegex regexFlags with
  | none => rw [h2] at h; cases h
  | some m =>
    rw [h2] at h
    simp only [Option.some.injEq] at h
    exact ⟨m, rfl, h.symm⟩

theorem request_inv {os : OS} {displayIndex : Int} {s : String} {dev : DISPLAY_DEVICE}
    {base req : DEVMODE} {name : String}
    (hfind : (FindDisplay os displayIndex).1 = some dev)
    (hcur : os.current dev.DeviceName = some base)
    (h : (name, req) ∈ changeRequests (SetDisplayMode os displayIndex s).calls) :
    name = dev.DeviceName ∧ applyModeString base s = some req := by
  cases happ : applyModeString base s with
  | none =>
    rw [changeRequests_of_reject hfind hcur happ] at h
    cases h
  | some m =>
    rw [changeRequests_of_apply hfind hcur happ] at h
    simp only [List.mem_singleton, Prod.mk.injEq] at h
    exact ⟨h.1, by rw [h.2]⟩

theorem map_toLower_of_data_eq {s : String} {W H : List Char} {D R : Option (List Char)}
    (hW : IsDigits W) (hH : IsDigits H) (hD : ∀ d ∈ D, IsDigits d) (hR : ∀ r ∈ R, IsDigits r)
    (hs : s.data = fullFormWord W H D R) :
    s.data.map Char.toLower = fullFormWord W H D R := by
  rw [hs, fullFormWord_map_toLower hW hH hD hR]

/-! ## Claims -/

/-- C1: once the display is found and its current mode (the baseline) is read,
every value field of the mode handed to `ChangeDisplaySettingsEx` whose capture
group did not match keeps the baseline's value.  First by capture group, for
every request the function makes: after the full pattern, depth is the
baseline's when group 3 did not match and refresh is when group 4 did not;
after the refresh-only pattern, width, height and depth are.  Then by the shape
of the string: every string `W x H [x D] [@ R]` (in any letter case) and every
string `@ R` leads to exactly one request, which has these properties. -/
theorem C1_unspecified_fields_keep_baseline (os : OS) (displayIndex : Int)
    (dev : DISPLAY_DEVICE) (base : DEVMODE)
    (hfind : (FindDisplay os displayIndex).1 = some dev)
    (hcur : os.current dev.DeviceName = some base) :
    (∀ (s : String) (name : String) (req : DEVMODE),
      (name, req) ∈ changeRequests (SetDisplayMode os displayIndex s).calls →
        (∀ m, regex_match s modeRegex regexFlags = some m →
          (m.matched 3 = false → req.dmBitsPerPel = base.dmBitsPerPel) ∧
          (m.matched 4 = false → req.dmDisplayFrequency = base.dmDisplayFrequency)) ∧
        (regex_match s modeRegex regexFlags = none →
          req.dmPelsWidth = base.dmPelsWidth ∧ req.dmPelsHeight = base.dmPelsHeight ∧
          req.dmBitsPerPel = base.dmBitsPerPel)) ∧
    (∀ (s : String) (W H : List Char) (D R : Option (List Char)),
      IsDigits W → IsDigits H → (∀ d ∈ D, IsDigits d) → (∀ r ∈ R, IsDigits r) →
      s.data.map Char.toLower = fullFormWord W H D R →
        ∃ req, changeRequests (SetDisplayMode os displayIndex s).calls = [(dev.DeviceName, req)] ∧
          (D = none → req.dmBitsPerPel = base.dmBitsPerPel) ∧
          (R = none → req.dmDisplayFrequency = base.dmDisplayFrequency)) ∧
    (∀ (s : String) (R : List Char), IsDigits R → s.data.map Char.toLower = '@' :: R →
        ∃ req, changeRequests (SetDisplayMode os displayIndex s).calls = [(dev.DeviceName, req)] ∧
          req.dmPelsWidth = base.dmPelsWidth ∧ req.dmPelsHeight = base.dmPelsHeight ∧
          req.dmBitsPerPel = base.dmBitsPerPel) := by
  refine ⟨?_, ?_, ?_⟩
  · intro s name req hreq
    obtain ⟨-, happ⟩ := request_inv hfind hcur hreq
    constructor
    · intro m hm
      rw [applyModeString_of_match base hm] at happ
      simp only [Option.some.injEq] at happ
      subst happ
      constructor
      · intro h3; simp [h3]
      · intro h4; simp [h4]
    · intro hm
      obtain ⟨m, -, hreq⟩ := applyModeString_of_no_match hm happ
      subst hreq
      exact ⟨rfl, rfl, rfl⟩
  · intro s W H D R hW hH hD hR hs
    have happ := applyModeString_full base hW hH hD hR hs
    refine ⟨_, changeRequests_of_apply hfind hcur happ, ?_, ?_⟩
    · intro hD0; subst hD0; rfl
    · intro hR0; subst hR0; rfl
  · intro s R hR hs
    have happ := applyModeString_refresh base hR hs
    exact ⟨_, changeRequests_of_apply hfind hcur happ, rfl, rfl, rfl⟩

/-- Witness of C1 on the sample machine: the request for `1920x1080` keeps the
baseline's depth 32 and refresh rate 60, the one for `@144` keeps 1280, 720 and 32. -/
theorem C1_witness :
    ((FindDisplay sampleOS 0).1 = some sampleDisplay ∧
      sampleOS.current sampleDisplay.DeviceName = some sampleCurrent) ∧
    (∃ req, changeRequests (SetDisplayMode sampleOS 0 "1920x1080").calls = [("DISPLAY1", req)] ∧
      req.dmBitsPerPel = 32 ∧ req.dmDisplayFrequency = 60) ∧
    (∃ req, changeRequests (SetDisplayMode sampleOS 0 "@144").calls = [("DISPLAY1", req)] ∧
      req.dmPelsWidth = 1280 ∧ req.dmPelsHeight = 720 ∧ req.dmBitsPerPel = 32) := by
  have h := C1_unspecified_fields_keep_baseline sampleOS 0 sampleDisplay sampleCurrent
    (by decide) (by decide)
  obtain ⟨req1, h1, h2, h3⟩ := h.2.1 "1920x1080" ['1', '9', '2', '0'] ['1', '0', '8', '0']
    none none (by decide) (by decide) (by decide) (by decide) (by decide)
  obtain ⟨req2, k1, k2, k3, k4⟩ := h.2.2 "@144" ['1', '4', '4'] (by decide) (by decide)
  exact ⟨⟨by decide, by decide⟩, ⟨req1, h1, h2 rfl, h3 rfl⟩, ⟨req2, k1, k2, k3, k4⟩⟩

theorem data_x : ("x" : String).data = ['x'] := rfl

theorem data_at : ("@" : String).data = ['@'] := rfl

/-- C2: once the display is found and the baseline read, for all digit strings
`W`, `H`, `D`, `R` whose decimal values fit in an `int`, the mode handed to
`ChangeDisplaySettingsEx` has the decimal values of the matched groups:
`WxH` sets width and height; `WxHxD` also depth; `WxH@R` also refresh rate;
`WxHxD@R` all four; `@R` sets the refresh rate and leaves width, height and
depth at the baseline's values. -/
theorem C2_fields_are_decimal_values (os : OS) (displayIndex : Int)
    (dev : DISPLAY_DEVICE) (base : DEVMODE) (W H D R : String)
    (hfind : (FindDisplay os displayIndex).1 = some dev)
    (hcur : os.current dev.DeviceName = some base)
    (hW : IsDigits W.data) (hH : IsDigits H.data) (hD : IsDigits D.data) (hR : IsDigits R.data)
    (fitW : (decimalValue W.data : Int) ≤ INT_MAX) (fitH : (decimalValue H.data : Int) ≤ INT_MAX)
    (fitD : (decimalValue D.data : Int) ≤ INT_MAX)
    (fitR : (decimalValue R.data : Int) ≤ INT_MAX) :
    (∃ req, changeRequests (SetDisplayMode os displayIndex (W ++ "x" ++ H)).calls
        = [(dev.DeviceName, req)] ∧
      req.dmPelsWidth = decimalValue W.data ∧ req.dmPelsHeight = decimalValue H.data) ∧
    (∃ req, changeRequests (SetDisplayMode os displayIndex (W ++ "x" ++ H ++ "x" ++ D)).calls
        = [(dev.DeviceName, req)] ∧
      req.dmPelsWidth = decimalValue W.data ∧ req.dmPelsHeight = decimalValue H.data ∧
      req.dmBitsPerPel = decimalValue D.data) ∧
    (∃ req, changeRequests (SetDisplayMode os displayIndex (W ++ "x" ++ H ++ "@" ++ R)).calls
        = [(dev.DeviceName, req)] ∧
      req.dmPelsWidth = decimalValue W.data ∧ req.dmPelsHeight = decimalValue H.data ∧
      req.dmDisplayFrequency = decimalValue R.data) ∧
    (∃ req, changeRequests
        (SetDisplayMode os displayIndex (W ++ "x" ++ H ++ "x" ++ D ++ "@" ++ R)).calls
        = [(dev.DeviceName, req)] ∧
      req.dmPelsWidth = decimalValue W.data ∧ req.dmPelsHeight = decimalValue H.data ∧
      req.dmBitsPerPel = decimalValue D.data ∧ req.dmDisplayFrequency = decimalValue R.data) ∧
    (∃ req, changeRequests (SetDisplayMode os displayIndex ("@" ++ R)).calls
        = [(dev.DeviceName, req)] ∧
      req.dmDisplayFrequency = decimalValue R.data ∧ req.dmPelsWidth = base.dmPelsWidth ∧
      req.dmPelsHeight = base.dmPelsHeight ∧ req.dmBitsPerPel = base.dmBitsPerPel) := by
  have vW := toDWORD_atoi_digits hW.2 fitW
  have vH := toDWORD_atoi_digits hH.2 fitH
  have vD := toDWORD_atoi_digits hD.2 fitD
  have vR := toDWORD_atoi_digits hR.2 fitR
  have oD : ∀ d ∈ some D.data, IsDigits d := by intro d hd; cases hd; exact hD
  have oR : ∀ r ∈ some R.data, IsDigits r := by intro r hr; cases hr; exact hR
  have oN : ∀ d ∈ (none : Option (List Char)), IsDigits d := by intro d hd; cases hd
  refine ⟨?_, ?_, ?_, ?_, ?_⟩
  · have hs : (W ++ "x" ++ H).data = fullFormWord W.data H.data none none := by
      simp [String.data_append, data_x, fullFormWord, optPart]
    have happ := applyModeString_full base hW hH oN oN (map_toLower_of_data_eq hW hH oN oN hs)
    exact ⟨_, changeRequests_of_apply hfind hcur happ, vW, vH⟩
  · have hs : (W ++ "x" ++ H ++ "x" ++ D).data = fullFormWord W.data H.data (some D.data) none := by
      simp [String.data_append, data_x, fullFormWord, optPart]
    have happ := applyModeString_full base hW hH oD oN (map_toLower_of_data_eq hW hH oD oN hs)
    exact ⟨_, changeRequests_of_apply hfind hcur happ, vW, vH, vD⟩
  · have hs : (W ++ "x" ++ H ++ "@" ++ R).data = fullFormWord W.data H.data none (some R.data) := by
      simp [String.data_append, data_x, data_at, fullFormWord, optPart]
    have happ := applyModeString_full base hW hH oN oR (map_toLower_of_data_eq hW hH oN oR hs)
    exact ⟨_, changeRequests_of_apply hfind hcur happ, vW, vH, vR⟩
  · have hs : (W ++ "x" ++ H ++ "x" ++ D ++ "@" ++ R).data
        = fullFormWord W.data H.data (some D.data) (some R.data) := by
      simp [String.data_append, data_x, data_at, fullFormWord, optPart]
    have happ := applyModeString_full base hW hH oD oR (map_toLower_of_data_eq hW hH oD oR hs)
    exact ⟨_, changeRequests_of_apply hfind hcur happ, vW, vH, vD, vR⟩
  · have hs : ("@" ++ R).data.map Char.toLower = '@' :: R.data := by
      rw [String.data_append, data_at]
      exact refreshWord_map_toLower hR
    have happ := applyModeString_refresh base hR hs
    exact ⟨_, changeRequests_of_apply hfind hcur happ, vR, rfl, rfl, rfl⟩

/-- Witness of C2 on the sample machine, at the strings `1920x1080`,
`1920x1080x32`, `1920x1080@60`, `1920x1080x32@60` and `@144`. -/
theorem C2_witness :
    ((FindDisplay sampleOS 0).1 = some sampleDisplay ∧
      sampleOS.current sampleDisplay.DeviceName = some sampleCurrent ∧
      IsDigits "1920".data ∧ IsDigits "1080".data ∧ IsDigits "32".data ∧ IsDigits "60".data ∧
      IsDigits "144".data ∧
      (decimalValue "1920".data : Int) ≤ INT_MAX ∧ (decimalValue "1080".data : Int) ≤ INT_MAX ∧
      (decimalValue "32".data : Int) ≤ INT_MAX ∧ (decimalValue "60".data : Int) ≤ INT_MAX ∧
      (decimalValue "144".data : Int) ≤ INT_MAX) ∧
    (∃ req, changeRequests (SetDisplayMode sampleOS 0 "1920x1080").calls = [("DISPLAY1", req)] ∧
      req.dmPelsWidth = 1920 ∧ req.dmPelsHeight = 1080) ∧
    (∃ req, changeRequests (SetDisplayMode sampleOS 0 "1920x1080x32").calls
        = [("DISPLAY1", req)] ∧
      req.dmPelsWidth = 1920 ∧ req.dmPelsHeight = 1080 ∧ req.dmBitsPerPel = 32) ∧
    (∃ req, changeRequests (SetDisplayMode sampleOS 0 "1920x1080@60").calls
        = [("DISPLAY1", req)] ∧
      req.dmPelsWidth = 1920 ∧ req.dmPelsHeight = 1080 ∧ req.dmDisplayFrequency = 60) ∧
    (∃ req, changeRequests (SetDisplayMode sampleOS 0 "1920x1080x32@60").calls
        = [("DISPLAY1", req)] ∧
      req.dmPelsWidth = 1920 ∧ req.dmPelsHeight = 1080 ∧ req.dmBitsPerPel = 32 ∧
      req.dmDisplayFrequency = 60) ∧
    (∃ req, changeRequests (SetDisplayMode sampleOS 0 "@144").calls = [("DISPLAY1", req)] ∧
      req.dmDisplayFrequency = 144 ∧ req.dmPelsWidth = 1280 ∧ req.dmPelsHeight = 720 ∧
      req.dmBitsPerPel = 32) := by
  have h := C2_fields_are_decimal_values sampleOS 0 sampleDisplay sampleCurrent
    "1920" "1080" "32" "60" (by decide) (by decide) (by decide) (by decide) (by decide)
    (by decide) (by decide) (by decide) (by decide) (by decide)
  have k := C2_fields_are_decimal_values sampleOS 0 sampleDisplay sampleCurrent
    "1920" "1080" "32" "144" (by decide) (by decide) (by decide) (by decide) (by decide)
    (by decide) (by decide) (by decide) (by decide) (by decide)
  exact ⟨⟨by decide, by decide, by decide, by decide, by decide, by decide, by decide,
    by decide, by decide, by decide, by decide, by decide⟩, h.1, h.2.1, h.2.2.1, h.2.2.2.1,
    k.2.2.2.2⟩

theorem invalid_message_ne_failed (s msg : String) :
    "Error: Failed to change display settings: " ++ msg ++ "\n"
      ≠ "Error: Invalid mode string: " ++ s ++ "\n" := by
  intro h
  have h1 := congrArg String.data h
  simp only [String.data_append] at h1
  simp at h1

theorem invalid_message_ne_empty (s : String) :
    ("" : String) ≠ "Error: Invalid mode string: " ++ s ++ "\n" := by
  intro h
  have h1 := congrArg String.data h
  simp only [String.data_append] at h1
  simp at h1

/-- C3: once the display is found and the baseline read, `SetDisplayMode` ends
with the invalid-mode-string error (exit code 1 and the message that echoes the
string) if and only if the whole string matches, in any letter case, neither the
full form `DIGITS x DIGITS [x DIGITS] [@ DIGITS]` nor the form `@ DIGITS`; and
then `ChangeDisplaySettingsEx` is not called. -/
theorem C3_invalid_mode_string_iff (os : OS) (displayIndex : Int) (dev : DISPLAY_DEVICE)
    (base : DEVMODE) (s : String)
    (hfind : (FindDisplay os displayIndex).1 = some dev)
    (hcur : os.current dev.DeviceName = some base) :
    (((SetDisplayMode os displayIndex s).code = EXIT_FAILURE ∧
        (SetDisplayMode os displayIndex s).err = "Error: Invalid mode string: " ++ s ++ "\n") ↔
      (¬ MatchesFullForm s ∧ ¬ MatchesRefreshForm s)) ∧
    ((¬ MatchesFullForm s ∧ ¬ MatchesRefreshForm s) →
      changeRequests (SetDisplayMode os displayIndex s).calls = [] ∧
      ∀ c ∈ (SetDisplayMode os displayIndex s).calls,
        ∀ name mode, c ≠ OsCall.ChangeDisplaySettingsEx name mode) := by
  constructor
  · constructor
    · rintro ⟨-, herr⟩
      rw [← applyModeString_eq_none_iff base s]
      cases happ : applyModeString base s with
      | none => rfl
      | some m =>
        exfalso
        rw [SetDisplayMode_of_apply hfind hcur happ] at herr
        simp only at herr
        split at herr
        · exact invalid_message_ne_failed _ _ herr
        · exact invalid_message_ne_empty _ herr
    · intro h
      have happ := (applyModeString_eq_none_iff base s).2 h
      rw [SetDisplayMode_of_reject hfind hcur happ]
      exact ⟨rfl, rfl⟩
  · intro h
    have happ := (applyModeString_eq_none_iff base s).2 h
    refine ⟨changeRequests_of_reject hfind hcur happ, ?_⟩
    rw [SetDisplayMode_of_reject hfind hcur happ]
    intro c hc name mode hcm
    simp only [List.mem_append, List.mem_singleton] at hc
    rcases hc with hc | hc
    · obtain ⟨j, hj⟩ := FindDisplay_calls os displayIndex c hc
      rw [hj] at hcm
      cases hcm
    · rw [hc] at hcm
      cases hcm

/-- Witness of C3 on the sample machine: `abc` and `1920` end with the
invalid-mode-string error and match neither form, without a change call;
`1920X1080` is treated exactly like `1920x1080`, which is accepted. -/
theorem C3_witness :
    ((FindDisplay sampleOS 0).1 = some sampleDisplay ∧
      sampleOS.current sampleDisplay.DeviceName = some sampleCurrent) ∧
    ((SetDisplayMode sampleOS 0 "abc").code = 1 ∧
      (SetDisplayMode sampleOS 0 "abc").err = "Error: Invalid mode string: abc\n" ∧
      ¬ MatchesFullForm "abc" ∧ ¬ MatchesRefreshForm "abc" ∧
      changeRequests (SetDisplayMode sampleOS 0 "abc").calls = []) ∧
    ((SetDisplayMode sampleOS 0 "1920").code = 1 ∧
      (SetDisplayMode sampleOS 0 "1920").err = "Error: Invalid mode string: 1920\n" ∧
      ¬ MatchesFullForm "1920" ∧ ¬ MatchesRefreshForm "1920" ∧
      changeRequests (SetDisplayMode sampleOS 0 "1920").calls = []) ∧
    (SetDisplayMode sampleOS 0 "1920X1080" = SetDisplayMode sampleOS 0 "1920x1080" ∧
      (SetDisplayMode sampleOS 0 "1920X1080").code = 0 ∧
      ¬ (¬ MatchesFullForm "1920X1080" ∧ ¬ MatchesRefreshForm "1920X1080")) := by
  have a := C3_invalid_mode_string_iff sampleOS 0 sampleDisplay sampleCurrent "abc"
    (by decide) (by decide)
  have b := C3_invalid_mode_string_iff sampleOS 0 sampleDisplay sampleCurrent "1920"
    (by decide) (by decide)
  have c := C3_invalid_mode_string_iff sampleOS 0 sampleDisplay sampleCurrent "1920X1080"
    (by decide) (by decide)
  have ha := a.1.1 ⟨by decide, by decide⟩
  have hb := b.1.1 ⟨by decide, by decide⟩
  refine ⟨⟨by decide, by decide⟩, ⟨by decide, by decide, ha.1, ha.2, (a.2 ha).1⟩,
    ⟨by decide, by decide, hb.1, hb.2, (b.2 hb).1⟩, by decide, by decide, ?_⟩
  intro hc
  have := (c.1.2 hc).2
  revert this
  decide

/-- C4, as the code has it: when the full pattern matched, the colour-depth flag
`DM_BITSPERPEL` is set in the fields indicator of a request only if the depth
group matched, or neither optional group matched and the baseline's own
indicator already had the flag; likewise `DM_DISPLAYFREQUENCY` with the
refresh-rate group. -/
theorem C4_flag_only_if_group_or_baseline (os : OS) (displayIndex : Int)
    (dev : DISPLAY_DEVICE) (base : DEVMODE) (s : String) (m : Captures) (name : String)
    (req : DEVMODE)
    (hfind : (FindDisplay os displayIndex).1 = some dev)
    (hcur : os.current dev.DeviceName = some base)
    (hm : regex_match s modeRegex regexFlags = some m)
    (hreq : (name, req) ∈ changeRequests (SetDisplayMode os displayIndex s).calls) :
    (hasFlag req.dmFields DM_BITSPERPEL = true →
      m.matched 3 = true ∨
        (m.matched 3 = false ∧ m.matched 4 = false ∧
          hasFlag base.dmFields DM_BITSPERPEL = true)) ∧
    (hasFlag req.dmFields DM_DISPLAYFREQUENCY = true →
      m.matched 4 = true ∨
        (m.matched 3 = false ∧ m.matched 4 = false ∧
          hasFlag base.dmFields DM_DISPLAYFREQUENCY = true)) := by
  obtain ⟨-, happ⟩ := request_inv hfind hcur hreq
  rw [applyModeString_of_match base hm] at happ
  simp only [Option.some.injEq] at happ
  subst happ
  cases h3 : m.matched 3 <;> cases h4 : m.matched 4 <;> simp only [h3, h4] <;>
    simp only [if_true, if_false, Bool.false_eq_true, true_or, or_true, true_and, false_or,
      and_true, implies_true, and_self]
  · constructor
    · intro h
      rw [hasFlag_or_of_disjoint _ _ _ (by decide), hasFlag_or_of_disjoint _ _ _ (by decide)] at h
      exact h
    · intro h
      rw [hasFlag_or_of_disjoint _ _ _ (by decide), hasFlag_or_of_disjoint _ _ _ (by decide)] at h
      exact h
  · intro h; exact absurd h (by decide)
  · intro h; exact absurd h (by decide)

/-- Witness of the amended C4 on the sample machine, at `1920x1080`: the request
carries both flags, no optional group matched, and the baseline has both. -/
theorem C4_witness :
    ((FindDisplay sampleOS 0).1 = some sampleDisplay ∧
      sampleOS.current sampleDisplay.DeviceName = some sampleCurrent ∧
      regex_match "1920x1080" modeRegex regexFlags
        = some [(2, ['1', '0', '8', '0']), (1, ['1', '9', '2', '0'])] ∧
      ("DISPLAY1", { sampleCurrent with dmPelsWidth := 1920, dmPelsHeight := 1080 })
        ∈ changeRequests (SetDisplayMode sampleOS 0 "1920x1080").calls) ∧
    hasFlag sampleCurrent.dmFields DM_BITSPERPEL = true ∧
    hasFlag sampleCurrent.dmFields DM_DISPLAYFREQUENCY = true := by
  have h := C4_flag_only_if_group_or_baseline sampleOS 0 sampleDisplay sampleCurrent
    "1920x1080" [(2, ['1', '0', '8', '0']), (1, ['1', '9', '2', '0'])] "DISPLAY1"
    { sampleCurrent with dmPelsWidth := 1920, dmPelsHeight := 1080 }
    (by decide) (by decide) (by decide) (by decide)
  refine ⟨⟨by decide, by decide, by decide, by decide⟩, ?_, ?_⟩
  · rcases h.1 (by decide) with h1 | h1
    · exact absurd h1 (by decide)
    · exact h1.2.2
  · rcases h.2 (by decide) with h1 | h1
    · exact absurd h1 (by decide)
    · exact h1.2.2

/-- Counterexample to C4 as stated: on the sample machine the baseline's fields
indicator has the depth and refresh-rate flags; for `1920x1080` groups 3 and 4
do not match, and the request handed to `ChangeDisplaySettingsEx` still has
both flags set. -/
theorem C4_counterexample :
    (FindDisplay sampleOS 0).1 = some sampleDisplay ∧
    sampleOS.current sampleDisplay.DeviceName = some sampleCurrent ∧
    (regex_match "1920x1080" modeRegex regexFlags).map
      (fun m => (m.matched 3, m.matched 4)) = some (false, false) ∧
    (changeRequests (SetDisplayMode sampleOS 0 "1920x1080").calls).map
      (fun r => (hasFlag r.2.dmFields DM_BITSPERPEL,
        hasFlag r.2.dmFields DM_DISPLAYFREQUENCY)) = [(true, true)] := by
  decide

/-- C5: for a display that is found and any finite sequence of entries the mode
enumeration reports, `ListDisplayModes` returns 0 and prints, after the display
description and the heading, one line `WIDTHxHEIGHTxDEPTH@REFRESH` for each
tuple of a list that is strictly ascending in the lexicographic order on
(width, height, depth, refresh), so has no duplicate, and has exactly the tuples
of the enumerated entries as members.  The tuple of an entry holds its four
members converted to `int`, which are the members themselves when they are
below `2 ^ 31`. -/
theorem C5_listed_modes_sorted_unique (os : OS) (displayIndex : Int) (dev : DISPLAY_DEVICE)
    (hfind : (FindDisplay os displayIndex).1 = some dev) :
    ∃ printed : List DisplayMode,
      (ListDisplayModes os displayIndex).code = EXIT_SUCCESS ∧
      (ListDisplayModes os displayIndex).out =
        "Display:\n\t" ++ dev.DeviceString
          ++ (match (os.monitors dev.DeviceName)[0]? with
              | some monitorDevice => " - " ++ monitorDevice.DeviceString
              | none => "")
          ++ "\n\nAvailable modes:" ++ "\n"
          ++ String.join (printed.map (fun t =>
              "\t" ++ toString t.1 ++ "x" ++ toString t.2.1 ++ "x" ++ toString t.2.2.1
                ++ "@" ++ toString t.2.2.2 ++ "\n"))
          ++ "\n" ∧
      printed.Pairwise tupleLess ∧
      printed.Nodup ∧
      (∀ t, t ∈ printed ↔ t ∈ (os.modes dev.DeviceName).map modeTuple) ∧
      (∀ mode : DEVMODE, mode.dmPelsWidth < 2 ^ 31 → mode.dmPelsHeight < 2 ^ 31 →
        mode.dmBitsPerPel < 2 ^ 31 → mode.dmDisplayFrequency < 2 ^ 31 →
        modeTuple mode = ((mode.dmPelsWidth : Int), (mode.dmPelsHeight : Int),
          (mode.dmBitsPerPel : Int), (mode.dmDisplayFrequency : Int))) := by
  refine ⟨(os.modes dev.DeviceName).foldl (fun set mode => setInsert (modeTuple mode) set) [],
    ?_, ?_, ?_, ?_, ?_, ?_⟩
  · unfold ListDisplayModes
    simp only [hfind]
  · unfold ListDisplayModes
    simp only [hfind, EnumModesLoop_fst, FindMonitor]
    rfl
  · exact pairwise_foldl_setInsert _ _ List.Pairwise.nil
  · exact nodup_of_pairwise_tupleLess (pairwise_foldl_setInsert _ _ List.Pairwise.nil)
  · intro t
    rw [mem_foldl_setInsert]
    simp
  · intro mode h1 h2 h3 h4
    simp only [modeTuple, toInt_of_lt h1, toInt_of_lt h2, toInt_of_lt h3, toInt_of_lt h4]

/-- Witness of C5 on the sample machine, whose enumeration reports
800x600x32@60 twice and out of order: the three distinct modes are printed in
ascending order. -/
theorem C5_witness :
    (FindDisplay sampleOS 0).1 = some sampleDisplay ∧
    (∃ printed : List DisplayMode,
      printed.Pairwise tupleLess ∧ printed.Nodup ∧
      (∀ t, t ∈ printed ↔ t ∈ (sampleOS.modes sampleDisplay.DeviceName).map modeTuple)) ∧
    (ListDisplayModes sampleOS 0).out =
      "Display:\n\tAdapter - Panel\n\nAvailable modes:\n"
        ++ "\t640x480x32@60\n\t800x600x16@75\n\t800x600x32@60\n\n" := by
  obtain ⟨printed, -, -, h3, h4, h5, -⟩ :=
    C5_listed_modes_sorted_unique sampleOS 0 sampleDisplay (by decide)
  exact ⟨by decide, ⟨printed, h3, h4, h5⟩, by decide⟩

/-- C6: once the display is found, the baseline is read and the mode string is
valid (it matches one of the two forms), there is exactly one request, and
`SetDisplayMode` returns 0 if and only if the change call on it returns
`DISP_CHANGE_SUCCESSFUL`; for every other result code, `DISP_CHANGE_RESTART`
included, it returns 1 and writes the reason
`GetChangeDisplaySettingsErrorMessage` gives for the code.  That function
returns the fixed text of each of the eight codes of its table and
`Unknown error` for every other code. -/
theorem C6_exit_code_and_reason (os : OS) (displayIndex : Int) (dev : DISPLAY_DEVICE)
    (base : DEVMODE) (s : String)
    (hfind : (FindDisplay os displayIndex).1 = some dev)
    (hcur : os.current dev.DeviceName = some base)
    (hvalid : MatchesFullForm s ∨ MatchesRefreshForm s) :
    (∃ req, changeRequests (SetDisplayMode os displayIndex s).calls = [(dev.DeviceName, req)] ∧
      ((SetDisplayMode os displayIndex s).code = EXIT_SUCCESS ↔
        os.change dev.DeviceName req = DISP_CHANGE_SUCCESSFUL) ∧
      (os.change dev.DeviceName req ≠ DISP_CHANGE_SUCCESSFUL →
        (SetDisplayMode os displayIndex s).code = EXIT_FAILURE ∧
        (SetDisplayMode os displayIndex s).err =
          "Error: Failed to change display settings: "
            ++ GetChangeDisplaySettingsErrorMessage (os.change dev.DeviceName req) ++ "\n") ∧
      (os.change dev.DeviceName req = DISP_CHANGE_RESTART →
        (SetDisplayMode os displayIndex s).code = EXIT_FAILURE)) ∧
    (GetChangeDisplaySettingsErrorMessage DISP_CHANGE_SUCCESSFUL
        = "The settings change was successful" ∧
      GetChangeDisplaySettingsErrorMessage DISP_CHANGE_BADDUALVIEW
        = "The settings change was unsuccessful because the system is DualView capable" ∧
      GetChangeDisplaySettingsErrorMessage DISP_CHANGE_BADFLAGS
        = "An invalid set of flags was passed in" ∧
      GetChangeDisplaySettingsErrorMessage DISP_CHANGE_BADMODE
        = "The graphics mode is not supported" ∧
      GetChangeDisplaySettingsErrorMessage DISP_CHANGE_BADPARAM
        = "An invalid parameter was passed in" ∧
      GetChangeDisplaySettingsErrorMessage DISP_CHANGE_FAILED
        = "The display driver failed the specified graphics mode" ∧
      GetChangeDisplaySettingsErrorMessage DISP_CHANGE_NOTUPDATED
        = "Unable to write settings to the registry" ∧
      GetChangeDisplaySettingsErrorMessage DISP_CHANGE_RESTART
        = "The computer must be restarted for the graphics mode to work") ∧
    (∀ errorCode : Int,
      errorCode ≠ DISP_CHANGE_SUCCESSFUL → errorCode ≠ DISP_CHANGE_BADDUALVIEW →
      errorCode ≠ DISP_CHANGE_BADFLAGS → errorCode ≠ DISP_CHANGE_BADMODE →
      errorCode ≠ DISP_CHANGE_BADPARAM → errorCode ≠ DISP_CHANGE_FAILED →
      errorCode ≠ DISP_CHANGE_NOTUPDATED → errorCode ≠ DISP_CHANGE_RESTART →
        GetChangeDisplaySettingsErrorMessage errorCode = "Unknown error") := by
  refine ⟨?_, by decide, ?_⟩
  · have hsome : applyModeString base s ≠ none := by
      intro h
      have := (applyModeString_eq_none_iff base s).1 h
      tauto
    obtain ⟨req, happ⟩ := Option.ne_none_iff_exists'.1 hsome
    refine ⟨req, changeRequests_of_apply hfind hcur happ, ?_⟩
    have hcode : (SetDisplayMode os displayIndex s).code =
        if os.change dev.DeviceName req ≠ DISP_CHANGE_SUCCESSFUL then EXIT_FAILURE
        else EXIT_SUCCESS := by
      rw [SetDisplayMode_of_apply hfind hcur happ]
    have herr : (SetDisplayMode os displayIndex s).err =
        if os.change dev.DeviceName req ≠ DISP_CHANGE_SUCCESSFUL then
          "Error: Failed to change display settings: "
            ++ GetChangeDisplaySettingsErrorMessage (os.change dev.DeviceName req) ++ "\n"
        else "" := by
      rw [SetDisplayMode_of_apply hfind hcur happ]
    by_cases hres : os.change dev.DeviceName req = DISP_CHANGE_SUCCESSFUL
    · rw [hcode, if_neg (not_not.2 hres)]
      refine ⟨⟨fun _ => hres, fun _ => rfl⟩, fun h => absurd hres h, fun h => ?_⟩
      rw [hres] at h
      exact absurd h (by decide)
    · rw [hcode, herr, if_pos hres, if_pos hres]
      exact ⟨⟨fun h => absurd h (by decide), fun h => absurd h hres⟩, fun _ => ⟨rfl, rfl⟩,
        fun _ => rfl⟩
  · intro errorCode h1 h2 h3 h4 h5 h6 h7 h8
    simp only [GetChangeDisplaySettingsErrorMessage, h1, h2, h3, h4, h5, h6, h7, h8, if_false]

/-- Witness of C6 on the sample machine: `1920x1080` is accepted by the change
call and the exit code is 0; `99999x1080` is refused with `DISP_CHANGE_BADMODE`,
the exit code is 1 and the message carries that code's text. -/
theorem C6_witness :
    ((FindDisplay sampleOS 0).1 = some sampleDisplay ∧
      sampleOS.current sampleDisplay.DeviceName = some sampleCurrent ∧
      MatchesFullForm "1920x1080" ∧ MatchesFullForm "99999x1080") ∧
    (SetDisplayMode sampleOS 0 "1920x1080").code = 0 ∧
    (SetDisplayMode sampleOS 0 "99999x1080").code = 1 ∧
    (SetDisplayMode sampleOS 0 "99999x1080").err
      = "Error: Failed to change display settings: The graphics mode is not supported\n" := by
  have m1 : MatchesFullForm "1920x1080" :=
    ⟨['1', '9', '2', '0'], ['1', '0', '8', '0'], none, none, by decide, by decide, by decide,
      by decide, by decide⟩
  have m2 : MatchesFullForm "99999x1080" :=
    ⟨['9', '9', '9', '9', '9'], ['1', '0', '8', '0'], none, none, by decide, by decide,
      by decide, by decide, by decide⟩
  obtain ⟨⟨r1, a1, a2, -⟩, -, -⟩ := C6_exit_code_and_reason sampleOS 0 sampleDisplay
    sampleCurrent "1920x1080" (by decide) (by decide) (Or.inl m1)
  obtain ⟨⟨r2, b1, -, b2, -⟩, -, -⟩ := C6_exit_code_and_reason sampleOS 0 sampleDisplay
    sampleCurrent "99999x1080" (by decide) (by decide) (Or.inl m2)
  have e1 : changeRequests (SetDisplayMode sampleOS 0 "1920x1080").calls
      = [("DISPLAY1", { sampleCurrent with dmPelsWidth := 1920, dmPelsHeight := 1080 })] := by
    decide
  have e2 : changeRequests (SetDisplayMode sampleOS 0 "99999x1080").calls
      = [("DISPLAY1", { sampleCurrent with dmPelsWidth := 99999, dmPelsHeight := 1080 })] := by
    decide
  rw [e1] at a1
  rw [e2] at b1
  simp only [List.cons.injEq, Prod.mk.injEq, and_true, true_and] at a1 b1
  obtain ⟨-, a1⟩ := a1
  obtain ⟨-, b1⟩ := b1
  subst a1 b1
  exact ⟨⟨by decide, by decide, m1, m2⟩, a2.2 (by decide), (b2 (by decide)).1,
    (b2 (by decide)).2⟩

/-- C7: with the attached displays a finite list of `n` entries, `FindDisplay`
finds a display if and only if `0 <= index < n`, and the display found is the
one at that zero-based position.  For every other index, negative ones included,
it finds none, and `ListDisplayModes` and `SetDisplayMode` both return 1 with the
display-not-found message, having made only the device-enumeration calls of
`FindDisplay`: no call that enumerates, queries or changes a mode. -/
theorem C7_find_display (os : OS) (displayIndex : Int) :
    (((FindDisplay os displayIndex).1).isSome = true ↔
      (0 ≤ displayIndex ∧ displayIndex < os.displays.length)) ∧
    (∀ dev, (FindDisplay os displayIndex).1 = some dev →
      os.displays[displayIndex.toNat]? = some dev) ∧
    (¬ (0 ≤ displayIndex ∧ displayIndex < os.displays.length) →
      (FindDisplay os displayIndex).1 = none ∧
      ListDisplayModes os displayIndex =
        { code := EXIT_FAILURE, out := "",
          err := "Display not found: " ++ toString displayIndex ++ "\n",
          calls := (FindDisplay os displayIndex).2 } ∧
      (∀ modeString, SetDisplayMode os displayIndex modeString =
        { code := EXIT_FAILURE, out := "",
          err := "Display not found: " ++ toString displayIndex ++ "\n",
          calls := (FindDisplay os displayIndex).2 }) ∧
      (∀ c ∈ (FindDisplay os displayIndex).2, c.touchesMode = false)) := by
  have hiff : ((FindDisplay os displayIndex).1).isSome = true ↔
      (0 ≤ displayIndex ∧ displayIndex < os.displays.length) := by
    rw [FindDisplay_fst]
    by_cases h0 : 0 ≤ displayIndex
    · rw [if_pos h0, Option.isSome_iff_exists]
      constructor
      · rintro ⟨d, hd⟩
        have := (List.getElem?_eq_some_iff.1 hd).1
        exact ⟨h0, by omega⟩
      · rintro ⟨-, hlt⟩
        have hlt' : displayIndex.toNat < os.displays.length := by omega
        exact ⟨_, List.getElem?_eq_getElem hlt'⟩
    · rw [if_neg h0]
      simp [h0]
  refine ⟨hiff, ?_, ?_⟩
  · intro dev hdev
    rw [FindDisplay_fst] at hdev
    by_cases h0 : 0 ≤ displayIndex
    · rw [if_pos h0] at hdev; exact hdev
    · rw [if_neg h0] at hdev; cases hdev
  · intro hout
    have hnone : (FindDisplay os displayIndex).1 = none := by
      cases hf : (FindDisplay os displayIndex).1 with
      | none => rfl
      | some d =>
        exfalso
        apply hout
        apply hiff.1
        rw [hf]
        rfl
    refine ⟨hnone, ?_, ?_, ?_⟩
    · unfold ListDisplayModes
      simp only [hnone]
    · intro modeString
      unfold SetDisplayMode
      simp only [hnone]
    · intro c hc
      obtain ⟨j, hj⟩ := FindDisplay_calls os displayIndex c hc
      rw [hj]
      rfl

/-- Witness of C7 on the sample machine, which has one display: index 99 is
not found, and `list` and `set` end with exit code 1 and the message, after the
two device-enumeration calls; index 0 is found. -/
theorem C7_witness :
    (FindDisplay sampleOS 99).1 = none ∧
    ListDisplayModes sampleOS 99 =
      { code := 1, out := "", err := "Display not found: 99\n",
        calls := [.EnumDisplayDevices none 0, .EnumDisplayDevices none 1] } ∧
    SetDisplayMode sampleOS 99 "1920x1080" =
      { code := 1, out := "", err := "Display not found: 99\n",
        calls := [.EnumDisplayDevices none 0, .EnumDisplayDevices none 1] } ∧
    (FindDisplay sampleOS (-1)).1 = none ∧
    (FindDisplay sampleOS 0).1 = some sampleDisplay := by
  have h := (C7_find_display sampleOS 99).2.2 (by decide)
  exact ⟨h.1, by decide, by decide, by decide, by decide⟩

/-- C8: for every argument vector with zero or one argument after the program
name, and for every one that is `set` followed by a display index and nothing
else, `main` writes the usage text to standard error and returns 1 without any
call into the display API; `ListDisplayModes` and `SetDisplayMode` always make
at least one such call, so neither was called. -/
theorem C8_usage_on_missing_arguments (os : OS) (programName : String) (params : List String)
    (h : params.length ≤ 1 ∨ ∃ indexArg, params = ["set", indexArg]) :
    main os programName params =
      { code := EXIT_FAILURE, out := "", err := PrintUsage programName, calls := [] } ∧
    (∀ displayIndex, (ListDisplayModes os displayIndex).calls ≠ []) ∧
    (∀ displayIndex modeString, (SetDisplayMode os displayIndex modeString).calls ≠ []) := by
  refine ⟨?_, ?_, ?_⟩
  · rcases h with h | ⟨indexArg, rfl⟩
    · match params, h with
      | [], _ => rfl
      | [_], _ => rfl
      | _ :: _ :: _, h => simp at h
    · simp [main]
  · intro displayIndex
    have hne := FindDisplay_calls_ne_nil os displayIndex
    unfold ListDisplayModes
    split
    · exact hne
    · simp [hne]
  · intro displayIndex modeString
    have hne := FindDisplay_calls_ne_nil os displayIndex
    cases hf : (FindDisplay os displayIndex).1 with
    | none =>
      unfold SetDisplayMode
      simp only [hf]
      exact hne
    | some dev =>
      cases hc : os.current dev.DeviceName with
      | none =>
        unfold SetDisplayMode
        simp [hf, hc]
      | some base =>
        cases ha : applyModeString base modeString with
        | none => rw [SetDisplayMode_of_reject hf hc ha]; simp
        | some mode => rw [SetDisplayMode_of_apply hf hc ha]; simp

/-- Witness of C8: no argument, one argument, and `set 0` without a mode string. -/
theorem C8_witness :
    (([] : List String).length ≤ 1 ∨ ∃ indexArg, ([] : List String) = ["set", indexArg]) ∧
    main sampleOS "windisplaymode" [] =
      { code := 1, out := "", err := PrintUsage "windisplaymode", calls := [] } ∧
    main sampleOS "windisplaymode" ["list"] =
      { code := 1, out := "", err := PrintUsage "windisplaymode", calls := [] } ∧
    main sampleOS "windisplaymode" ["set", "0"] =
      { code := 1, out := "", err := PrintUsage "windisplaymode", calls := [] } :=
  ⟨Or.inl (by decide),
    (C8_usage_on_missing_arguments sampleOS "windisplaymode" [] (Or.inl (by decide))).1,
    (C8_usage_on_missing_arguments sampleOS "windisplaymode" ["list"] (Or.inl (by decide))).1,
    (C8_usage_on_missing_arguments sampleOS "windisplaymode" ["set", "0"]
      (Or.inr ⟨"0", rfl⟩)).1⟩

/-- C9, as the code has it: for every invocation whose first argument is
neither `list` nor `set`, `main` returns 1 without any call into the display
API; when at least two arguments are given the message is the `Unknown command`
message naming the first argument, and with that single argument it is the usage
text. -/
theorem C9_unknown_command (os : OS) (programName : String) (command : String)
    (more : List String) (hlist : command ≠ "list") (hset : command ≠ "set") :
    (main os programName (command :: more)).code = EXIT_FAILURE ∧
    (main os programName (command :: more)).calls = [] ∧
    (1 ≤ more.length →
      main os programName (command :: more) =
        { code := EXIT_FAILURE, out := "", err := "Unknown command: " ++ command ++ "\n",
          calls := [] }) ∧
    (more = [] →
      main os programName (command :: more) =
        { code := EXIT_FAILURE, out := "", err := PrintUsage programName, calls := [] }) := by
  cases more with
  | nil => exact ⟨rfl, rfl, fun h => absurd h (by decide), fun _ => rfl⟩
  | cons indexArg rest =>
    have hmain : main os programName (command :: indexArg :: rest) =
        { code := EXIT_FAILURE, out := "", err := "Unknown command: " ++ command ++ "\n",
          calls := [] } := by
      simp [main, hlist, hset]
    rw [hmain]
    exact ⟨rfl, rfl, fun _ => rfl, fun h => by cases h⟩

/-- Witness of the amended C9: `toggle 0` gets the `Unknown command` message. -/
theorem C9_witness :
    (("toggle" : String) ≠ "list" ∧ ("toggle" : String) ≠ "set") ∧
    main sampleOS "windisplaymode" ["toggle", "0"] =
      { code := 1, out := "", err := "Unknown command: toggle\n", calls := [] } :=
  ⟨⟨by decide, by decide⟩,
    (C9_unknown_command sampleOS "windisplaymode" "toggle" ["0"] (by decide)
      (by decide)).2.2.1 (by decide)⟩

/-- Counterexample to C9 as stated: with the single argument `toggle`, `main`
takes the `paramCount < 2` exit and writes the usage text, not the
`Unknown command` message. -/
theorem C9_counterexample :
    main sampleOS "windisplaymode" ["toggle"] =
      { code := 1, out := "", err := PrintUsage "windisplaymode", calls := [] } ∧
    (main sampleOS "windisplaymode" ["toggle"]).err ≠ "Unknown command: toggle\n" := by
  constructor
  · rfl
  · decide

/-- C10: once the display is found and the baseline read, for every string of
the full form `W x H [x D] [@ R]` (in any letter case) the fields indicator of
the one request is: exactly `DM_DISPLAYFREQUENCY` when the refresh rate is
given, exactly `DM_BITSPERPEL` when only the depth is given (both independent of
the baseline), and the baseline's indicator with the width and height flags
OR-ed in when neither is given.  So with depth or refresh rate given the width
and height flags are not in it, and with both given the depth flag is not. -/
theorem C10_fields_indicator_overwritten (os : OS) (displayIndex : Int)
    (dev : DISPLAY_DEVICE) (base : DEVMODE) (s : String) (W H : List Char)
    (D R : Option (List Char))
    (hfind : (FindDisplay os displayIndex).1 = some dev)
    (hcur : os.current dev.DeviceName = some base)
    (hW : IsDigits W) (hH : IsDigits H) (hD : ∀ d ∈ D, IsDigits d) (hR : ∀ r ∈ R, IsDigits r)
    (hs : s.data.map Char.toLower = fullFormWord W H D R) :
    ∃ req, changeRequests (SetDisplayMode os displayIndex s).calls = [(dev.DeviceName, req)] ∧
      (R.isSome = true → req.dmFields = DM_DISPLAYFREQUENCY) ∧
      (D.isSome = true → R = none → req.dmFields = DM_BITSPERPEL) ∧
      (D = none → R = none →
        req.dmFields = base.dmFields ||| DM_PELSWIDTH ||| DM_PELSHEIGHT) ∧
      (D.isSome = true ∨ R.isSome = true →
        hasFlag req.dmFields DM_PELSWIDTH = false ∧
        hasFlag req.dmFields DM_PELSHEIGHT = false) ∧
      (D.isSome = true → R.isSome = true → hasFlag req.dmFields DM_BITSPERPEL = false) := by
  have happ := applyModeString_full base hW hH hD hR hs
  refine ⟨_, changeRequests_of_apply hfind hcur happ, ?_⟩
  cases D <;> cases R <;> simp <;> decide

/-- Witness of C10 on the sample machine: the fields indicators of the requests
for `1920x1080x32@60`, `1920x1080x32`, `1920x1080@60` and `1920x1080`. -/
theorem C10_witness :
    ((FindDisplay sampleOS 0).1 = some sampleDisplay ∧
      sampleOS.current sampleDisplay.DeviceName = some sampleCurrent) ∧
    (∃ req, changeRequests (SetDisplayMode sampleOS 0 "1920x1080x32@60").calls
        = [("DISPLAY1", req)] ∧ req.dmFields = 0x400000) ∧
    (∃ req, changeRequests (SetDisplayMode sampleOS 0 "1920x1080x32").calls
        = [("DISPLAY1", req)] ∧ req.dmFields = 0x40000) ∧
    (∃ req, changeRequests (SetDisplayMode sampleOS 0 "1920x1080@60").calls
        = [("DISPLAY1", req)] ∧ req.dmFields = 0x400000) ∧
    (∃ req, changeRequests (SetDisplayMode sampleOS 0 "1920x1080").calls
        = [("DISPLAY1", req)] ∧ req.dmFields = 0x5C0000) := by
  have w : IsDigits ['1', '9', '2', '0'] := by decide
  have h : IsDigits ['1', '0', '8', '0'] := by decide
  obtain ⟨r1, a1, a2, -⟩ := C10_fields_indicator_overwritten sampleOS 0 sampleDisplay
    sampleCurrent "1920x1080x32@60" ['1', '9', '2', '0'] ['1', '0', '8', '0']
    (some ['3', '2']) (some ['6', '0']) (by decide) (by decide) w h (by decide) (by decide)
    (by decide)
  obtain ⟨r2, b1, -, b2, -⟩ := C10_fields_indicator_overwritten sampleOS 0 sampleDisplay
    sampleCurrent "1920x1080x32" ['1', '9', '2', '0'] ['1', '0', '8', '0']
    (some ['3', '2']) none (by decide) (by decide) w h (by decide) (by decide) (by decide)
  obtain ⟨r3, c1, c2, -⟩ := C10_fields_indicator_overwritten sampleOS 0 sampleDisplay
    sampleCurrent "1920x1080@60" ['1', '9', '2', '0'] ['1', '0', '8', '0']
    none (some ['6', '0']) (by decide) (by decide) w h (by decide) (by decide) (by decide)
  obtain ⟨r4, d1, -, -, d2, -⟩ := C10_fields_indicator_overwritten sampleOS 0 sampleDisplay
    sampleCurrent "1920x1080" ['1', '9', '2', '0'] ['1', '0', '8', '0']
    none none (by decide) (by decide) w h (by decide) (by decide) (by decide)
  exact ⟨⟨by decide, by decide⟩, ⟨r1, a1, a2 rfl⟩, ⟨r2, b1, b2 rfl rfl⟩, ⟨r3, c1, c2 rfl⟩,
    ⟨r4, d1, d2 rfl rfl⟩⟩

end WinDisplayMode
